import Mathlib

/-!
Verification of the s3tf navigation core: a shallow embedding of
`src/provider.go` (navigation tree cache and interaction state machine) and
`src/s3.go` (remote listing / download wrappers).  Remote calls, local file
creation and the external viewer/editor are abstracted into an environment
record; their success or failure is an input of every step.  Components of
the repository whose files are not available (`Node`, `ListView`, `MenuView`,
`DetailView`, `S3Object` constructors, `Detail`) are modelled from the spec,
as marked in their doc comments.
-/

namespace S3TF

/-- Entry kinds of a listing row (the `ObjType` tag of `S3Object`).
Modelled from the spec: a closed tagged variant Container | UpDir | Group |
Leaf, named as the Go constants `Bucket`, `PreDir`, `Dir`, `Object`. -/
inductive ObjType
  | Bucket
  | PreDir
  | Dir
  | Object
  deriving DecidableEq

/-- One row of a listing.  Modelled from the spec: `kind`, `name`, optional
timestamp and optional byte count (the `S3Object` type of the repository,
whose defining file is not in the sources). -/
structure S3Object where
  objType : ObjType
  name : String
  date : Option Nat
  size : Option Int
  deriving DecidableEq

/-- Constructor as used throughout `src/s3.go` (`NewS3Object(ty, name, date,
size)`).  Modelled from the spec. -/
def NewS3Object (ty : ObjType) (name : String) (date : Option Nat)
    (size : Option Int) : S3Object :=
  { objType := ty, name := name, date := date, size := size }

/-- Raw data of one bucket in a `ListBuckets` response (name and creation
date), before `src/s3.go` turns it into `S3Object`s. -/
structure BucketInfo where
  name : String
  creationDate : Option Nat
  deriving DecidableEq

/-- Raw data of one object in a `ListObjects` response (key, last-modified,
size), before `src/s3.go` turns it into `S3Object`s. -/
structure Content where
  key : String
  lastModified : Option Nat
  size : Option Int
  deriving DecidableEq

/-- Raw `ListObjects` response: common prefixes and directly contained
objects, as consumed by `src/s3.go` lines 86-103. -/
structure ListResp where
  commonPrefixes : List String
  contents : List Content
  deriving DecidableEq

/-- Result construction of `ListBuckets` (src/s3.go lines 39-49): one
`Bucket`-kind object per bucket of the response. -/
def listBucketsResult (buckets : List BucketInfo) : List S3Object :=
  buckets.map fun b => NewS3Object ObjType.Bucket b.name b.creationDate none

/-- Result construction of `ListObjects` (src/s3.go lines 76-104): a
synthetic `PreDir ".."` entry is appended first and unconditionally, then one
`Dir` entry per common prefix, then one `Object` entry per content row. -/
def listObjectsResult (resp : ListResp) : List S3Object :=
  NewS3Object ObjType.PreDir ("..") none none ::
    ((resp.commonPrefixes.map fun cp => NewS3Object ObjType.Dir cp none none) ++
      resp.contents.map fun c => NewS3Object ObjType.Object c.key c.lastModified c.size)

/-- Identifier of a node in the navigation tree; the tree is kept as an
arena (list of nodes) and Go pointers become indices into it. -/
abbrev NodeId := Nat

/-- One level of the navigation tree.  Modelled from the spec: `key`,
non-owning `parent` back-reference (`none` for the root), lazily grown
`children` map (kept in insertion order), the last fetched `entries`
(field name `objects` as at the use sites in `src/provider.go`), and the
per-level cursor `position`. -/
structure Node where
  key : String
  parent : Option NodeId
  children : List (String × NodeId)
  objects : List S3Object
  position : Nat
  deriving DecidableEq

/-- Placeholder node used to totalise arena lookups; under the session
invariant every dereferenced index is in bounds and never yields it. -/
def dummyNode : Node :=
  { key := "", parent := none, children := [], objects := [], position := 0 }

/-- Node constructor as called in `src/provider.go` lines 50 and 244.
Modelled from the spec: a fresh node starts with no children and cursor 0. -/
def NewNode (key : String) (parent : Option NodeId)
    (objects : List S3Object) : Node :=
  { key := key, parent := parent, children := [], objects := objects, position := 0 }

/-- Root test used at `src/provider.go` lines 122 and 296.  Modelled from
the spec: the root is the unique node with no parent. -/
def Node.IsRoot (n : Node) : Bool :=
  n.parent.isNone

/-- Cache-membership test used at `src/provider.go` lines 212 and 221.
Modelled from the spec: whether `key` is already attached as a child. -/
def Node.IsExistChildren (n : Node) (key : String) : Bool :=
  n.children.any fun kc => kc.1 == key

/-- Cached-child lookup used at `src/provider.go` line 236.  Modelled from
the spec: the child attached under `key`, if any. -/
def Node.GetChild (n : Node) (key : String) : Option NodeId :=
  (n.children.find? fun kc => kc.1 == key).map fun kc => kc.2

/-- Child attachment used at `src/provider.go` line 245.  Modelled from the
spec: the children map only grows. -/
def Node.AddChild (n : Node) (key : String) (c : NodeId) : Node :=
  { n with children := n.children ++ [(key, c)] }

/-- List pane state (`ListView` of the repository, file not in the sources).
Modelled from the spec: the entries currently shown and the highlighted
row. -/
structure ListView where
  objects : List S3Object
  cursorPos : Nat
  deriving DecidableEq

/-- Modelled from the spec: `MoveCursor` clamps `cursorIndex + delta` to
`[0, len(entries)-1]` and is a no-op on an empty listing. -/
def moveCursor (len pos : Nat) (delta : Int) : Nat :=
  if len = 0 then pos
  else (min (max ((pos : Int) + delta) 0) ((len : Int) - 1)).toNat

/-- Modelled from the spec: move the highlight one row down, returning the
new index (assigned to the node's `position` at the call site,
`src/provider.go` line 287). -/
def ListView.down (w : ListView) : ListView × Nat :=
  let i := moveCursor w.objects.length w.cursorPos 1
  ({ w with cursorPos := i }, i)

/-- Modelled from the spec: move the highlight one row up. -/
def ListView.up (w : ListView) : ListView × Nat :=
  let i := moveCursor w.objects.length w.cursorPos (-1)
  ({ w with cursorPos := i }, i)

/-- Modelled from the spec: the row under the cursor; `none` models the Go
index-out-of-range panic on an empty pane. -/
def ListView.getCursorObject (w : ListView) : Option S3Object :=
  w.objects.get? w.cursorPos

/-- Modelled from the spec: showing a node restores its listing and its
saved cursor position (scroll position survives revisits). -/
def ListView.updateList (node : Node) : ListView :=
  { objects := node.objects, cursorPos := node.position }

/-- Menu actions (`Command*` constants of the repository). -/
inductive Command
  | CommandDownload
  | CommandOpen
  | CommandEdit
  deriving DecidableEq

/-- The fixed three-item menu built in `src/provider.go` lines 75-79. -/
def menuItems : List Command :=
  [Command.CommandDownload, Command.CommandOpen, Command.CommandEdit]

/-- Modelled from the spec: menu move-down cycles the three fixed items. -/
def menuDown (pos : Nat) : Nat :=
  (pos + 1) % 3

/-- Modelled from the spec: menu move-up cycles the three fixed items. -/
def menuUp (pos : Nat) : Nat :=
  (pos + 2) % 3

/-- Interaction modes (`ProviderStatus` of `src/provider.go` lines 19-25). -/
inductive ProviderStatus
  | StateList
  | StateMenu
  | StateDetail
  deriving DecidableEq

/-- Remote calls observable at the transport boundary. -/
inductive RemoteCall
  | listBucketsCall
  | listObjectsCall (bucket pfx : String)
  | downloadCall (bucket key : String)
  | metadataCall (bucket key : String)
  deriving DecidableEq

/-- Externally visible effects of one dispatched event: remote calls and
log output (the `log` package, distinct from the status line). -/
inductive Eff
  | remote (c : RemoteCall)
  | logMsg (s : String)
  deriving DecidableEq

/-- The remote calls among a list of effects. -/
def remoteCalls (effs : List Eff) : List RemoteCall :=
  effs.filterMap fun e =>
    match e with
    | Eff.remote c => some c
    | Eff.logMsg _ => none

/-- Environment: outcomes of the external collaborators for one dispatched
event.  `none` / `false` stand for a transport or local-IO failure of the
corresponding call. -/
structure Env where
  listBuckets : Option (List BucketInfo)
  listObjects : String → String → Option ListResp
  createFile : Bool
  downloadOk : Bool
  openOk : Bool
  metadata : String → String → String

/-- Remote one-level listing (src/s3.go `ListObjects`): on success the
response is turned into rows by `listObjectsResult`; `none` is the error
path, which logs and calls `os.Exit(1)` at the call site's behalf
(src/s3.go lines 67-74). -/
def ListObjects (env : Env) (bucket pfx : String) : Option (List S3Object) :=
  (env.listObjects bucket pfx).map listObjectsResult

/-- Session state of the interaction state machine (`Provider` of
`src/provider.go` lines 27-38, views kept to the fields the handlers
touch). -/
structure Provider where
  status : ProviderStatus
  nodes : List Node
  navigator : NodeId
  bucket : String
  listView : ListView
  statusMsg : String
  menuPos : Nat
  detailKey : String
  detailObj : String
  detailPos : Nat
  deriving DecidableEq

/-- The node the `navigator` pointer currently designates. -/
def Provider.currentNode (p : Provider) : Node :=
  p.nodes.getD p.navigator dummyNode

/-- Bucket-root test used at `src/provider.go` line 128.  Modelled from the
spec: true when the node's parent is the root. -/
def Provider.IsBucketRoot (p : Provider) : Bool :=
  match (p.currentNode).parent with
  | none => false
  | some pid => ((p.nodes.getD pid dummyNode).parent).isNone

/-- Outcome of dispatching one event. -/
inductive Outcome
  | next (p : Provider)
  | exited
  | panicked
  | quit (p : Provider)
  deriving DecidableEq

/-- Key part of a terminal event (the termbox keys the handlers test). -/
inductive TermKey
  | Esc
  | ArrowDown
  | ArrowUp
  | ArrowLeft
  | ArrowRight
  | Enter
  | CtrlN
  | CtrlP
  | KNone
  deriving DecidableEq

/-- A terminal key event: a printable rune `ch` or a special key. -/
structure Event where
  ch : Char
  key : TermKey
  deriving DecidableEq

/-- Well-formedness of a termbox event: a nonzero rune comes with no
special key set. -/
def Event.wf (ev : Event) : Prop :=
  ev.ch ≠ Char.ofNat 0 → ev.key = TermKey.KNone

/-- Startup state (src/provider.go `Init`, lines 48-86): a root node is
built from the initial bucket listing — which must have succeeded, a
bootstrap failure exits before any session exists — and the list pane
mirrors it. -/
def NewProvider (buckets : List BucketInfo) : Provider :=
  { status := ProviderStatus.StateList
    nodes := [NewNode ("") none (listBucketsResult buckets)]
    navigator := 0
    bucket := ""
    listView := { objects := listBucketsResult buckets, cursorPos := 0 }
    statusMsg := ""
    menuPos := 0
    detailKey := ""
    detailObj := ""
    detailPos := 0 }

/-- State part of `moveNext` (src/provider.go lines 235-240): point the
navigator at the cached child and show its listing. -/
def Provider.moveNextState (p : Provider) (cid : NodeId) : Provider :=
  { p with
      navigator := cid
      listView := ListView.updateList (p.nodes.getD cid dummyNode) }

/-- `moveNext` (src/provider.go lines 235-240): descend into the cached
child of `key`; a missing child would be a nil dereference (`panicked`),
call sites guard with `IsExistChildren`. -/
def Provider.moveNext (p : Provider) (key : String) : Outcome × List Eff :=
  match (p.currentNode).GetChild key with
  | none => (Outcome.panicked, [])
  | some cid =>
      (Outcome.next (p.moveNextState cid),
        [Eff.logMsg (("Move next. child:") ++ (p.nodes.getD cid dummyNode).key)])

/-- State part of `loadNext` (src/provider.go lines 242-249): create a
fresh child holding `objects`, attach it under `key`, descend into it. -/
def Provider.loadNextState (p : Provider) (key : String)
    (objects : List S3Object) : Provider :=
  let child := NewNode key (some p.navigator) objects
  { p with
      nodes := (p.nodes.set p.navigator
        ((p.currentNode).AddChild key p.nodes.length)) ++ [child]
      navigator := p.nodes.length
      listView := ListView.updateList child }

/-- `loadNext` (src/provider.go lines 242-249). -/
def Provider.loadNext (p : Provider) (key : String)
    (objects : List S3Object) : Outcome × List Eff :=
  (Outcome.next (p.loadNextState key objects),
    [Eff.logMsg (("Load next. parent:") ++ (p.currentNode).key ++ (", child:") ++ key)])

/-- `loadPrev` (src/provider.go lines 251-256): ascend to the parent; at
the root the parent pointer is nil and the dereference panics (the code has
no guard here — callers on the `h` key guard, the UpDir path does not). -/
def Provider.loadPrev (p : Provider) : Outcome × List Eff :=
  match (p.currentNode).parent with
  | none => (Outcome.panicked, [])
  | some pid =>
      (Outcome.next { p with
          navigator := pid
          listView := ListView.updateList (p.nodes.getD pid dummyNode) },
        [Eff.logMsg (("Load prev. parent:") ++ (p.nodes.getD pid dummyNode).key)])

/-- Wholesale entry replacement of the current node, mirrored into the list
pane — the state change common to all branches of `reload`
(src/provider.go lines 121-136).  Note: the cursor is not touched. -/
def Provider.setObjectsHere (p : Provider) (objs : List S3Object) : Provider :=
  { p with
      nodes := p.nodes.set p.navigator { p.currentNode with objects := objs }
      listView := { p.listView with objects := objs } }

/-- `reload` (src/provider.go lines 121-136): re-fetch the listing for the
current scope (root / bucket root / prefix) and replace the entries; a
transport failure logs and exits the process (src/s3.go lines 30-37 and
67-74). -/
def Provider.reload (env : Env) (p : Provider) : Outcome × List Eff :=
  if (p.currentNode).IsRoot then
    match env.listBuckets with
    | none => (Outcome.exited,
        [Eff.remote RemoteCall.listBucketsCall, Eff.logMsg ("failed to upload object")])
    | some bs =>
        (Outcome.next (p.setObjectsHere (listBucketsResult bs)),
          [Eff.remote RemoteCall.listBucketsCall])
  else if p.IsBucketRoot then
    match ListObjects env p.bucket ("") with
    | none => (Outcome.exited,
        [Eff.remote (RemoteCall.listObjectsCall p.bucket ("")),
          Eff.logMsg ("failed to upload object")])
    | some objs =>
        (Outcome.next (p.setObjectsHere objs),
          [Eff.remote (RemoteCall.listObjectsCall p.bucket (""))])
  else
    match ListObjects env p.bucket (p.currentNode).key with
    | none => (Outcome.exited,
        [Eff.remote (RemoteCall.listObjectsCall p.bucket (p.currentNode).key),
          Eff.logMsg ("failed to upload object")])
    | some objs =>
        (Outcome.next (p.setObjectsHere objs),
          [Eff.remote (RemoteCall.listObjectsCall p.bucket (p.currentNode).key)])

/-- `download` (src/provider.go lines 138-156): on a `Object` row, create
the local file (`log.Fatalf`, i.e. process exit, on failure), stream the
object (transport failure logs and exits, src/s3.go lines 128-135), then
report completion on the status line; on any other row kind only a log
line is written and nothing changes. -/
def Provider.download (env : Env) (p : Provider) : Outcome × List Eff :=
  match p.listView.getCursorObject with
  | none => (Outcome.panicked, [])
  | some obj =>
      match obj.objType with
      | ObjType.Object =>
          if env.createFile then
            if env.downloadOk then
              (Outcome.next { p with statusMsg :=
                  ("download complate. s3://") ++ p.bucket ++ ("/") ++ obj.name },
                [Eff.remote (RemoteCall.downloadCall p.bucket obj.name)])
            else
              (Outcome.exited,
                [Eff.remote (RemoteCall.downloadCall p.bucket obj.name),
                  Eff.logMsg ("failed to upload object")])
          else (Outcome.exited, [Eff.logMsg ("failed create donwload reader")])
      | _ => (Outcome.next p, [Eff.logMsg ("Invalid s3 object type")])

/-- `open` (src/provider.go lines 158-180): like `download` into a temp
dir, then hand the file to the external opener; a failing opener is
`log.Fatalf`, i.e. process exit. -/
def Provider.openObj (env : Env) (p : Provider) : Outcome × List Eff :=
  match p.listView.getCursorObject with
  | none => (Outcome.panicked, [])
  | some obj =>
      match obj.objType with
      | ObjType.Object =>
          if env.createFile then
            if env.downloadOk then
              if env.openOk then
                (Outcome.next { p with statusMsg :=
                    ("open. s3://") ++ p.bucket ++ ("/") ++ obj.name },
                  [Eff.remote (RemoteCall.downloadCall p.bucket obj.name)])
              else
                (Outcome.exited,
                  [Eff.remote (RemoteCall.downloadCall p.bucket obj.name),
                    Eff.logMsg ("failed open file")])
            else
              (Outcome.exited,
                [Eff.remote (RemoteCall.downloadCall p.bucket obj.name),
                  Eff.logMsg ("failed to upload object")])
          else (Outcome.exited, [Eff.logMsg ("failed create donwload reader")])
      | _ => (Outcome.next p, [Eff.logMsg ("Invalid s3 object type")])

/-- `edit` (src/provider.go lines 182-205): like `open` but the terminal is
torn down around the external editor, whose exit status is ignored. -/
def Provider.edit (env : Env) (p : Provider) : Outcome × List Eff :=
  match p.listView.getCursorObject with
  | none => (Outcome.panicked, [])
  | some obj =>
      match obj.objType with
      | ObjType.Object =>
          if env.createFile then
            if env.downloadOk then
              (Outcome.next { p with statusMsg :=
                  ("edit. s3://") ++ p.bucket ++ ("/") ++ obj.name },
                [Eff.remote (RemoteCall.downloadCall p.bucket obj.name)])
            else
              (Outcome.exited,
                [Eff.remote (RemoteCall.downloadCall p.bucket obj.name),
                  Eff.logMsg ("failed to upload object")])
          else (Outcome.exited, [Eff.logMsg ("failed create donwload reader")])
      | _ => (Outcome.next p, [Eff.logMsg ("Invalid s3 object type")])

/-- `detail` (src/provider.go lines 262-266): switch to Detail mode showing
metadata for the row under the cursor.  The metadata fetch `Detail` is
modelled from the spec (`GetMetadata`), its defining file not being in the
sources. -/
def Provider.detail (env : Env) (p : Provider) (obj : S3Object) : Provider :=
  { p with
      status := ProviderStatus.StateDetail
      detailObj := env.metadata p.bucket obj.name
      detailKey := obj.name }

/-- `show` (src/provider.go lines 207-233): activate the row under the
cursor — descend into a bucket or directory (cache hit reuses the child,
cache miss performs one listing call and attaches a fresh child), ascend on
the `..` row, ignore object rows. -/
def Provider.showObj (env : Env) (p : Provider) (obj : S3Object) : Outcome × List Eff :=
  match obj.objType with
  | ObjType.Bucket =>
      let p1 := { p with bucket := obj.name }
      if (p1.currentNode).IsExistChildren obj.name then p1.moveNext obj.name
      else
        match ListObjects env obj.name ("") with
        | none => (Outcome.exited,
            [Eff.remote (RemoteCall.listObjectsCall obj.name ("")),
              Eff.logMsg ("failed to upload object")])
        | some objs =>
            let r := p1.loadNext obj.name objs
            (r.1, Eff.remote (RemoteCall.listObjectsCall obj.name ("")) :: r.2)
  | ObjType.Dir =>
      if (p.currentNode).IsExistChildren obj.name then p.moveNext obj.name
      else
        match ListObjects env p.bucket obj.name with
        | none => (Outcome.exited,
            [Eff.remote (RemoteCall.listObjectsCall p.bucket obj.name),
              Eff.logMsg ("failed to upload object")])
        | some objs =>
            let r := p.loadNext obj.name objs
            (r.1, Eff.remote (RemoteCall.listObjectsCall p.bucket obj.name) :: r.2)
  | ObjType.PreDir => p.loadPrev
  | ObjType.Object => (Outcome.next p, [])

/-- `listEvent` (src/provider.go lines 279-311): List-mode key dispatch.
The quit branch raises the interrupt that ends the event loop. -/
def Provider.listEvent (env : Env) (ev : Event) (p : Provider) : Outcome × List Eff :=
  if ev.key = TermKey.Esc ∨ ev.ch = 'q' then
    (Outcome.quit p, [])
  else if ev.ch = 'j' ∨ ev.key = TermKey.ArrowDown ∨ ev.key = TermKey.CtrlN then
    let r := p.listView.down
    (Outcome.next { p with
        listView := r.1
        nodes := p.nodes.set p.navigator { p.currentNode with position := r.2 } }, [])
  else if ev.ch = 'k' ∨ ev.key = TermKey.ArrowUp ∨ ev.key = TermKey.CtrlP then
    let r := p.listView.up
    (Outcome.next { p with
        listView := r.1
        nodes := p.nodes.set p.navigator { p.currentNode with position := r.2 } }, [])
  else if ev.ch = 'm' then
    (Outcome.next { p with status := ProviderStatus.StateMenu }, [])
  else if ev.ch = 'd' then
    match p.listView.getCursorObject with
    | none => (Outcome.panicked, [])
    | some obj =>
        (Outcome.next (p.detail env obj),
          [Eff.remote (RemoteCall.metadataCall p.bucket obj.name)])
  else if ev.ch = 'h' ∨ ev.key = TermKey.ArrowLeft then
    if (p.currentNode).IsRoot then (Outcome.next p, []) else p.loadPrev
  else if ev.ch = 'r' then p.reload env
  else if ev.ch = 'w' then p.download env
  else if ev.ch = 'o' then p.openObj env
  else if ev.ch = 'e' then p.edit env
  else if ev.ch = 'l' ∨ ev.key = TermKey.ArrowRight ∨ ev.key = TermKey.Enter then
    match p.listView.getCursorObject with
    | none => (Outcome.panicked, [])
    | some obj => p.showObj env obj
  else (Outcome.next p, [])

/-- `menuEvent` (src/provider.go lines 313-332): Menu-mode key dispatch;
`q` cancels back to List, Enter runs the selected action and then returns
to List. -/
def Provider.menuEvent (env : Env) (ev : Event) (p : Provider) : Outcome × List Eff :=
  if ev.ch = 'j' ∨ ev.key = TermKey.ArrowDown ∨ ev.key = TermKey.CtrlN then
    (Outcome.next { p with menuPos := menuDown p.menuPos }, [])
  else if ev.ch = 'k' ∨ ev.key = TermKey.ArrowUp ∨ ev.key = TermKey.CtrlP then
    (Outcome.next { p with menuPos := menuUp p.menuPos }, [])
  else if ev.ch = 'q' then
    (Outcome.next { p with status := ProviderStatus.StateList }, [])
  else if ev.key = TermKey.Enter then
    let r :=
      match menuItems.getD p.menuPos Command.CommandDownload with
      | Command.CommandDownload => p.download env
      | Command.CommandOpen => p.openObj env
      | Command.CommandEdit => p.edit env
    match r.1 with
    | Outcome.next p1 => (Outcome.next { p1 with status := ProviderStatus.StateList }, r.2)
    | o => (o, r.2)
  else (Outcome.next p, [])

/-- `detailEvent` (src/provider.go lines 334-342): Detail-mode key
dispatch; scrolling is modelled from the spec, `q` cancels back to List. -/
def Provider.detailEvent (ev : Event) (p : Provider) : Outcome × List Eff :=
  if ev.ch = 'j' ∨ ev.key = TermKey.ArrowDown ∨ ev.key = TermKey.CtrlN then
    (Outcome.next { p with detailPos := p.detailPos + 1 }, [])
  else if ev.ch = 'k' ∨ ev.key = TermKey.ArrowUp ∨ ev.key = TermKey.CtrlP then
    (Outcome.next { p with detailPos := p.detailPos - 1 }, [])
  else if ev.ch = 'q' then
    (Outcome.next { p with status := ProviderStatus.StateList }, [])
  else (Outcome.next p, [])

/-- `Handle` (src/provider.go lines 268-277): route the event to the
handler of the current mode. -/
def Provider.Handle (env : Env) (ev : Event) (p : Provider) : Outcome × List Eff :=
  match p.status with
  | ProviderStatus.StateList => p.listEvent env ev
  | ProviderStatus.StateMenu => p.menuEvent env ev
  | ProviderStatus.StateDetail => p.detailEvent ev

/-- Session states reachable from some startup state through dispatched
events (each step may face a different environment). -/
inductive Reachable : Provider → Prop
  | boot (buckets : List BucketInfo) : Reachable (NewProvider buckets)
  | step (env : Env) (ev : Event) (p p' : Provider) (effs : List Eff) :
      Reachable p → Provider.Handle env ev p = (Outcome.next p', effs) → Reachable p'

/-! Concrete sample data: a store with one bucket `alpha` holding one common
prefix `logs/` and one object `readme.txt`, and the session states reached
by booting, descending into the bucket, and moving the cursor.  These feed
the witnesses and counterexamples below. -/

/-- Sample bucket list of the sample store. -/
def demoBuckets : List BucketInfo :=
  [{ name := "alpha", creationDate := none }]

/-- The root row for the sample bucket. -/
def demoBucketObj : S3Object :=
  NewS3Object ObjType.Bucket ("alpha") none none

/-- Sample one-level listing response inside the bucket. -/
def demoResp : ListResp :=
  { commonPrefixes := [("logs/")]
    contents := [{ key := "readme.txt", lastModified := none, size := some 42 }] }

/-- The rows `listObjectsResult` builds from `demoResp`. -/
def demoObjs : List S3Object :=
  listObjectsResult demoResp

/-- Environment in which every external call succeeds. -/
def demoEnv : Env :=
  { listBuckets := some demoBuckets
    listObjects := fun _ _ => some demoResp
    createFile := true
    downloadOk := true
    openOk := true
    metadata := fun _ _ => "meta" }

/-- Environment whose listing calls fail (transport error). -/
def demoEnvListFail : Env :=
  { demoEnv with listObjects := fun _ _ => none }

/-- Environment whose download transfer fails (transport error). -/
def demoEnvNoDownload : Env :=
  { demoEnv with downloadOk := false }

/-- Environment in which creating the local destination file fails. -/
def demoEnvNoCreate : Env :=
  { demoEnv with createFile := false }

/-- Environment whose listing succeeds with an empty response (no prefixes,
no contents), so the fresh listing has exactly the one synthetic row. -/
def demoEnvEmptyList : Env :=
  { demoEnv with listObjects := fun _ _ => some { commonPrefixes := [], contents := [] } }

/-- Activate key event (`l`). -/
def evL : Event := { ch := 'l', key := TermKey.KNone }

/-- Go-back key event (`h`). -/
def evH : Event := { ch := 'h', key := TermKey.KNone }

/-- Quit/cancel key event (`q`). -/
def evQ : Event := { ch := 'q', key := TermKey.KNone }

/-- Enter key event (no rune). -/
def evEnter : Event := { ch := Char.ofNat 0, key := TermKey.Enter }

/-- The session right after startup on the sample store. -/
def demoBoot : Provider := NewProvider demoBuckets

/-- The root node after the bucket child has been attached. -/
def demoRootAfter : Node :=
  { key := "", parent := none, children := [(("alpha" : String), 1)]
    objects := [demoBucketObj], position := 0 }

/-- The child node cached for bucket `alpha`. -/
def demoChild : Node :=
  { key := "alpha", parent := some 0, children := [], objects := demoObjs, position := 0 }

/-- The session after activating the bucket row from `demoBoot`. -/
def demoAfter : Provider :=
  { status := ProviderStatus.StateList
    nodes := [demoRootAfter, demoChild]
    navigator := 1
    bucket := "alpha"
    listView := { objects := demoObjs, cursorPos := 0 }
    statusMsg := ""
    menuPos := 0
    detailKey := ""
    detailObj := ""
    detailPos := 0 }

/-- `demoAfter` after going back up to the root (the bucket child stays
cached). -/
def demoBack : Provider :=
  { demoAfter with
      navigator := 0
      listView := { objects := [demoBucketObj], cursorPos := 0 } }

/-- `demoAfter` with the cursor moved down once (onto the `logs/` row). -/
def demoCursor1 : Provider :=
  { demoAfter with
      listView := { objects := demoObjs, cursorPos := 1 }
      nodes := [demoRootAfter, { demoChild with position := 1 }] }

/-- `demoAfter` with the cursor moved down twice (onto the `readme.txt`
row). -/
def demoCursor2 : Provider :=
  { demoAfter with
      listView := { objects := demoObjs, cursorPos := 2 }
      nodes := [demoRootAfter, { demoChild with position := 2 }] }

/-- `demoCursor2` after opening the menu. -/
def demoMenu : Provider :=
  { demoCursor2 with status := ProviderStatus.StateMenu }

/-- A Detail-mode session over `demoAfter`. -/
def demoDetail : Provider :=
  { demoAfter with status := ProviderStatus.StateDetail }

/-! Arena access helper lemmas. -/

theorem list_getD_set_self {α : Type _} (l : List α) (i : Nat) (a d : α)
    (h : i < l.length) : (l.set i a).getD i d = a := by
  rw [List.getD_eq_getD_get?, List.get?_set_eq_of_lt a h]
  rfl

theorem list_getD_set_ne {α : Type _} (l : List α) (i j : Nat) (a d : α)
    (h : i ≠ j) : (l.set i a).getD j d = l.getD j d := by
  rw [List.getD_eq_getD_get?, List.get?_set_ne a l h, ← List.getD_eq_getD_get?]

theorem list_getD_set_any {α : Type _} (l : List α) (i : Nat) (a d : α) :
    (l.set i a).getD i d = if i < l.length then a else d := by
  split_ifs with h
  · exact list_getD_set_self l i a d h
  · have hn : l.get? i = none := List.get?_eq_none.2 (Nat.le_of_not_lt h)
    rw [List.getD_eq_getD_get?, List.get?_set_eq a i l, hn]
    rfl

theorem getD_set_parent (l : List Node) (nav : Nat) (upd : Node)
    (hf : upd.parent = (l.getD nav dummyNode).parent) (j : Nat) :
    ((l.set nav upd).getD j dummyNode).parent = (l.getD j dummyNode).parent := by
  by_cases hj : nav = j
  · subst hj
    rw [list_getD_set_any]
    split_ifs with hnl
    · rw [hf]
    · rw [List.getD_eq_default l dummyNode (Nat.le_of_not_lt hnl)]
  · rw [list_getD_set_ne l nav j upd dummyNode hj]

theorem getD_set_children (l : List Node) (nav : Nat) (upd : Node)
    (hf : upd.children = (l.getD nav dummyNode).children) (j : Nat) :
    ((l.set nav upd).getD j dummyNode).children = (l.getD j dummyNode).children := by
  by_cases hj : nav = j
  · subst hj
    rw [list_getD_set_any]
    split_ifs with hnl
    · rw [hf]
    · rw [List.getD_eq_default l dummyNode (Nat.le_of_not_lt hnl)]
  · rw [list_getD_set_ne l nav j upd dummyNode hj]

theorem getD_set_objects (l : List Node) (nav : Nat) (upd : Node)
    (hf : upd.objects = (l.getD nav dummyNode).objects) (j : Nat) :
    ((l.set nav upd).getD j dummyNode).objects = (l.getD j dummyNode).objects := by
  by_cases hj : nav = j
  · subst hj
    rw [list_getD_set_any]
    split_ifs with hnl
    · rw [hf]
    · rw [List.getD_eq_default l dummyNode (Nat.le_of_not_lt hnl)]
  · rw [list_getD_set_ne l nav j upd dummyNode hj]

/-! The session invariant: the navigator points into the arena, the root is
node 0 and the only parentless node, parent and child links stay inside the
arena, a cached child's parent link designates the node it is attached to,
the root listing holds only bucket rows, and the list pane mirrors the
current node's listing. -/

structure Inv (p : Provider) : Prop where
  navValid : p.navigator < p.nodes.length
  rootParent : ((p.nodes.getD 0 dummyNode).parent) = none
  nonRootParent : ∀ i, i < p.nodes.length → i ≠ 0 →
    ((p.nodes.getD i dummyNode).parent).isSome = true
  parentValid : ∀ i, i < p.nodes.length → ∀ j,
    (p.nodes.getD i dummyNode).parent = some j → j < p.nodes.length
  childValid : ∀ i, i < p.nodes.length → ∀ k c,
    (k, c) ∈ (p.nodes.getD i dummyNode).children →
      c < p.nodes.length ∧ (p.nodes.getD c dummyNode).parent = some i
  rootBuckets : ∀ o ∈ (p.nodes.getD 0 dummyNode).objects, o.objType = ObjType.Bucket
  viewSync : p.listView.objects = (p.currentNode).objects

/-- The invariant only concerns the arena, the navigator and the pane
contents; every other field may change freely. -/
theorem Inv.of_fields {p q : Provider} (h : Inv p) (hn : q.nodes = p.nodes)
    (hv : q.navigator = p.navigator)
    (hl : q.listView.objects = p.listView.objects) : Inv q := by
  constructor
  · rw [hn, hv]; exact h.navValid
  · rw [hn]; exact h.rootParent
  · rw [hn]; exact h.nonRootParent
  · rw [hn]; exact h.parentValid
  · rw [hn]; exact h.childValid
  · rw [hn]; exact h.rootBuckets
  · show q.listView.objects = (q.nodes.getD q.navigator dummyNode).objects
    rw [hl, hn, hv]; exact h.viewSync

/-- All bucket-listing rows carry the `Bucket` kind. -/
theorem listBucketsResult_bucket (bs : List BucketInfo) :
    ∀ o ∈ listBucketsResult bs, o.objType = ObjType.Bucket := by
  intro o ho
  simp only [listBucketsResult, List.mem_map] at ho
  obtain ⟨b, _, rfl⟩ := ho
  rfl

/-- The startup state satisfies the invariant. -/
theorem inv_newProvider (buckets : List BucketInfo) : Inv (NewProvider buckets) := by
  constructor
  · show 0 < 1
    decide
  · rfl
  · intro i hi hne
    exact absurd (Nat.lt_one_iff.mp hi) hne
  · intro i hi j hj
    have h0 : i = 0 := Nat.lt_one_iff.mp hi
    subst h0
    exact absurd hj (by simp [NewProvider, NewNode])
  · intro i hi k c hm
    have h0 : i = 0 := Nat.lt_one_iff.mp hi
    subst h0
    exact absurd hm (by simp [NewProvider, NewNode])
  · intro o ho
    exact listBucketsResult_bucket buckets o ho
  · rfl

/-- Replacing the current node by one with the same parent, children and
objects (e.g. a cursor move) and giving the pane any state with the same
rows preserves the invariant. -/
theorem inv_update_current (p : Provider) (h : Inv p) (upd : Node) (lv : ListView)
    (hpar : upd.parent = (p.currentNode).parent)
    (hch : upd.children = (p.currentNode).children)
    (hobj : upd.objects = (p.currentNode).objects)
    (hlv : lv.objects = p.listView.objects) :
    Inv { p with
            nodes := p.nodes.set p.navigator upd
            listView := lv } := by
  have hpar' : upd.parent = (p.nodes.getD p.navigator dummyNode).parent := hpar
  have hch' : upd.children = (p.nodes.getD p.navigator dummyNode).children := hch
  have hobj' : upd.objects = (p.nodes.getD p.navigator dummyNode).objects := hobj
  constructor
  · show p.navigator < (p.nodes.set p.navigator upd).length
    rw [List.length_set]
    exact h.navValid
  · show ((p.nodes.set p.navigator upd).getD 0 dummyNode).parent = none
    rw [getD_set_parent p.nodes p.navigator upd hpar' 0]
    exact h.rootParent
  · intro i hi hne
    rw [List.length_set] at hi
    show ((p.nodes.set p.navigator upd).getD i dummyNode).parent.isSome = true
    rw [getD_set_parent p.nodes p.navigator upd hpar' i]
    exact h.nonRootParent i hi hne
  · intro i hi j hj
    rw [List.length_set] at hi
    rw [getD_set_parent p.nodes p.navigator upd hpar' i] at hj
    show j < (p.nodes.set p.navigator upd).length
    rw [List.length_set]
    exact h.parentValid i hi j hj
  · intro i hi k c hm
    rw [List.length_set] at hi
    rw [getD_set_children p.nodes p.navigator upd hch' i] at hm
    obtain ⟨hc1, hc2⟩ := h.childValid i hi k c hm
    refine ⟨?_, ?_⟩
    · show c < (p.nodes.set p.navigator upd).length
      rw [List.length_set]
      exact hc1
    · show ((p.nodes.set p.navigator upd).getD c dummyNode).parent = some i
      rw [getD_set_parent p.nodes p.navigator upd hpar' c]
      exact hc2
  · intro o ho
    rw [getD_set_objects p.nodes p.navigator upd hobj' 0] at ho
    exact h.rootBuckets o ho
  · show lv.objects = ((p.nodes.set p.navigator upd).getD p.navigator dummyNode).objects
    rw [list_getD_set_self p.nodes p.navigator upd dummyNode h.navValid, hobj, hlv]
    exact h.viewSync

/-- Moving to a cached child preserves the invariant. -/
theorem inv_moveNextState (p : Provider) (h : Inv p) (cid : NodeId)
    (hc : ∃ k, (k, cid) ∈ (p.currentNode).children) :
    Inv (p.moveNextState cid) := by
  obtain ⟨k, hk⟩ := hc
  obtain ⟨hlt, _⟩ := h.childValid p.navigator h.navValid k cid hk
  constructor
  · exact hlt
  · exact h.rootParent
  · exact h.nonRootParent
  · exact h.parentValid
  · exact h.childValid
  · exact h.rootBuckets
  · rfl

/-- Attaching and entering a fresh child preserves the invariant (stated on
the explicit record `loadNextState` builds). -/
theorem inv_loadNextState (p : Provider) (h : Inv p) (key : String)
    (objs : List S3Object) :
    Inv { p with
            nodes := (p.nodes.set p.navigator
              ((p.currentNode).AddChild key p.nodes.length)) ++
                [NewNode key (some p.navigator) objs]
            navigator := p.nodes.length
            listView := ListView.updateList (NewNode key (some p.navigator) objs) } := by
  have hnav := h.navValid
  have hpos : 0 < p.nodes.length := Nat.lt_of_le_of_lt (Nat.zero_le _) hnav
  set L := p.nodes.length with hL
  set upd := (p.currentNode).AddChild key L with hupd
  set child := NewNode key (some p.navigator) objs with hchild
  have hupar : upd.parent = (p.nodes.getD p.navigator dummyNode).parent := rfl
  have huobj : upd.objects = (p.nodes.getD p.navigator dummyNode).objects := rfl
  have hlen : ((p.nodes.set p.navigator upd) ++ [child]).length = L + 1 := by
    rw [List.length_append, List.length_set]
    rfl
  have hsetlen : (p.nodes.set p.navigator upd).length = L := List.length_set p.nodes _ _
  have hlow : ∀ j, j < L →
      ((p.nodes.set p.navigator upd) ++ [child]).getD j dummyNode =
        (p.nodes.set p.navigator upd).getD j dummyNode := by
    intro j hj
    exact List.getD_append _ _ dummyNode j (by rw [hsetlen]; exact hj)
  have hlast : ((p.nodes.set p.navigator upd) ++ [child]).getD L dummyNode = child := by
    rw [List.getD_append_right _ _ dummyNode L (by rw [hsetlen])]
    rw [hsetlen]
    simp
  constructor
  · show L < ((p.nodes.set p.navigator upd) ++ [child]).length
    rw [hlen]
    exact Nat.lt_succ_self L
  · show ((((p.nodes.set p.navigator upd) ++ [child])).getD 0 dummyNode).parent = none
    rw [hlow 0 hpos, getD_set_parent p.nodes p.navigator upd hupar 0]
    exact h.rootParent
  · intro i hi hne
    rw [hlen] at hi
    rcases Nat.lt_succ_iff_lt_or_eq.mp hi with hi' | hi'
    · rw [hlow i hi', getD_set_parent p.nodes p.navigator upd hupar i]
      exact h.nonRootParent i hi' hne
    · subst hi'
      rw [hlast]
      rfl
  · intro i hi j hj
    rw [hlen] at hi
    show j < ((p.nodes.set p.navigator upd) ++ [child]).length
    rw [hlen]
    rcases Nat.lt_succ_iff_lt_or_eq.mp hi with hi' | hi'
    · rw [hlow i hi', getD_set_parent p.nodes p.navigator upd hupar i] at hj
      exact Nat.lt_succ_of_lt (h.parentValid i hi' j hj)
    · subst hi'
      rw [hlast] at hj
      have : p.navigator = j := by
        have := hj
        simp [hchild, NewNode] at this
        exact this
      rw [← this]
      exact Nat.lt_succ_of_lt hnav
  · intro i hi k c hm
    rw [hlen] at hi
    rcases Nat.lt_succ_iff_lt_or_eq.mp hi with hi' | hi'
    · rw [hlow i hi'] at hm
      by_cases hinav : i = p.navigator
      · subst hinav
        rw [list_getD_set_self p.nodes p.navigator upd dummyNode hnav] at hm
        have hm' : (k, c) ∈ (p.currentNode).children ∨ (k, c) = (key, L) := by
          have := hm
          simp only [hupd, Node.AddChild, List.mem_append, List.mem_singleton] at this
          exact this
        rcases hm' with hm' | hm'
        · obtain ⟨hc1, hc2⟩ := h.childValid p.navigator hnav k c hm'
          refine ⟨by rw [hlen]; exact Nat.lt_succ_of_lt hc1, ?_⟩
          rw [hlow c hc1, getD_set_parent p.nodes p.navigator upd hupar c]
          exact hc2
        · have hck : c = L := by
            have := congrArg Prod.snd hm'
            exact this
          subst hck
          refine ⟨by rw [hlen]; exact Nat.lt_succ_self L, ?_⟩
          rw [hlast]
          rfl
      · rw [list_getD_set_ne p.nodes p.navigator i upd dummyNode
            (fun hh => hinav hh.symm)] at hm
        obtain ⟨hc1, hc2⟩ := h.childValid i hi' k c hm
        refine ⟨by rw [hlen]; exact Nat.lt_succ_of_lt hc1, ?_⟩
        rw [hlow c hc1, getD_set_parent p.nodes p.navigator upd hupar c]
        exact hc2
    · subst hi'
      rw [hlast] at hm
      exact absurd hm (by simp [hchild, NewNode])
  · intro o ho
    rw [hlow 0 hpos, getD_set_objects p.nodes p.navigator upd huobj 0] at ho
    exact h.rootBuckets o ho
  · show (ListView.updateList child).objects =
      ((((p.nodes.set p.navigator upd) ++ [child])).getD L dummyNode).objects
    rw [hlast]
    rfl

/-- Ascending to the parent preserves the invariant. -/
theorem inv_loadPrev (p : Provider) (h : Inv p) (q : Provider) (effs : List Eff)
    (hq : p.loadPrev = (Outcome.next q, effs)) : Inv q := by
  unfold Provider.loadPrev at hq
  cases hpar : (p.currentNode).parent with
  | none =>
      rw [hpar] at hq
      exact absurd hq (by simp)
  | some pid =>
      rw [hpar] at hq
      have hq' : Outcome.next { p with
          navigator := pid
          listView := ListView.updateList (p.nodes.getD pid dummyNode) } =
        Outcome.next q := congrArg Prod.fst hq
      have hqq := Outcome.next.inj hq'
      rw [← hqq]
      have hlt : pid < p.nodes.length := h.parentValid p.navigator h.navValid pid hpar
      constructor
      · exact hlt
      · exact h.rootParent
      · exact h.nonRootParent
      · exact h.parentValid
      · exact h.childValid
      · exact h.rootBuckets
      · rfl

/-- Wholesale replacement of the current node's rows preserves the
invariant, provided a replacement at the root again holds only bucket
rows. -/
theorem inv_setObjectsHere (p : Provider) (h : Inv p) (objs : List S3Object)
    (hroot : p.navigator = 0 → ∀ o ∈ objs, o.objType = ObjType.Bucket) :
    Inv { p with
            nodes := p.nodes.set p.navigator { p.currentNode with objects := objs }
            listView := { p.listView with objects := objs } } := by
  set upd := { p.currentNode with objects := objs } with hupd
  have hupar : upd.parent = (p.nodes.getD p.navigator dummyNode).parent := rfl
  have huch : upd.children = (p.nodes.getD p.navigator dummyNode).children := rfl
  constructor
  · show p.navigator < (p.nodes.set p.navigator upd).length
    rw [List.length_set]
    exact h.navValid
  · show ((p.nodes.set p.navigator upd).getD 0 dummyNode).parent = none
    rw [getD_set_parent p.nodes p.navigator upd hupar 0]
    exact h.rootParent
  · intro i hi hne
    rw [List.length_set] at hi
    show ((p.nodes.set p.navigator upd).getD i dummyNode).parent.isSome = true
    rw [getD_set_parent p.nodes p.navigator upd hupar i]
    exact h.nonRootParent i hi hne
  · intro i hi j hj
    rw [List.length_set] at hi
    rw [getD_set_parent p.nodes p.navigator upd hupar i] at hj
    show j < (p.nodes.set p.navigator upd).length
    rw [List.length_set]
    exact h.parentValid i hi j hj
  · intro i hi k c hm
    rw [List.length_set] at hi
    rw [getD_set_children p.nodes p.navigator upd huch i] at hm
    obtain ⟨hc1, hc2⟩ := h.childValid i hi k c hm
    refine ⟨?_, ?_⟩
    · show c < (p.nodes.set p.navigator upd).length
      rw [List.length_set]
      exact hc1
    · show ((p.nodes.set p.navigator upd).getD c dummyNode).parent = some i
      rw [getD_set_parent p.nodes p.navigator upd hupar c]
      exact hc2
  · intro o ho
    by_cases hnav : p.navigator = 0
    · rw [hnav] at ho
      rw [list_getD_set_self p.nodes 0 upd dummyNode (by rw [← hnav]; exact h.navValid)] at ho
      exact hroot hnav o ho
    · rw [list_getD_set_ne p.nodes p.navigator 0 upd dummyNode hnav] at ho
      exact h.rootBuckets o ho
  · show objs = ((p.nodes.set p.navigator upd).getD p.navigator dummyNode).objects
    rw [list_getD_set_self p.nodes p.navigator upd dummyNode h.navValid]

/-- A download either exits (failed create or failed transfer), panics (no
cursor row), or continues in a state differing at most in the status
line. -/
theorem download_shape (env : Env) (p : Provider) :
    (Provider.download env p).1 = Outcome.exited ∨
      (Provider.download env p).1 = Outcome.panicked ∨
      ∃ m, (Provider.download env p).1 = Outcome.next { p with statusMsg := m } := by
  cases hobj : p.listView.getCursorObject with
  | none => right; left; simp [Provider.download, hobj]
  | some obj =>
      cases hty : obj.objType with
      | Object =>
          by_cases h1 : env.createFile
          · by_cases h2 : env.downloadOk
            · right; right
              exact ⟨("download complate. s3://") ++ p.bucket ++ ("/") ++ obj.name,
                by simp [Provider.download, hobj, hty, h1, h2]⟩
            · left; simp [Provider.download, hobj, hty, h1, h2]
          · left; simp [Provider.download, hobj, hty, h1]
      | Bucket => right; right; exact ⟨p.statusMsg, by simp [Provider.download, hobj, hty]⟩
      | PreDir => right; right; exact ⟨p.statusMsg, by simp [Provider.download, hobj, hty]⟩
      | Dir => right; right; exact ⟨p.statusMsg, by simp [Provider.download, hobj, hty]⟩

/-- Same shape fact for the open action. -/
theorem openObj_shape (env : Env) (p : Provider) :
    (Provider.openObj env p).1 = Outcome.exited ∨
      (Provider.openObj env p).1 = Outcome.panicked ∨
      ∃ m, (Provider.openObj env p).1 = Outcome.next { p with statusMsg := m } := by
  cases hobj : p.listView.getCursorObject with
  | none => right; left; simp [Provider.openObj, hobj]
  | some obj =>
      cases hty : obj.objType with
      | Object =>
          by_cases h1 : env.createFile
          · by_cases h2 : env.downloadOk
            · by_cases h3 : env.openOk
              · right; right
                exact ⟨("open. s3://") ++ p.bucket ++ ("/") ++ obj.name,
                  by simp [Provider.openObj, hobj, hty, h1, h2, h3]⟩
              · left; simp [Provider.openObj, hobj, hty, h1, h2, h3]
            · left; simp [Provider.openObj, hobj, hty, h1, h2]
          · left; simp [Provider.openObj, hobj, hty, h1]
      | Bucket => right; right; exact ⟨p.statusMsg, by simp [Provider.openObj, hobj, hty]⟩
      | PreDir => right; right; exact ⟨p.statusMsg, by simp [Provider.openObj, hobj, hty]⟩
      | Dir => right; right; exact ⟨p.statusMsg, by simp [Provider.openObj, hobj, hty]⟩

/-- Same shape fact for the edit action. -/
theorem edit_shape (env : Env) (p : Provider) :
    (Provider.edit env p).1 = Outcome.exited ∨
      (Provider.edit env p).1 = Outcome.panicked ∨
      ∃ m, (Provider.edit env p).1 = Outcome.next { p with statusMsg := m } := by
  cases hobj : p.listView.getCursorObject with
  | none => right; left; simp [Provider.edit, hobj]
  | some obj =>
      cases hty : obj.objType with
      | Object =>
          by_cases h1 : env.createFile
          · by_cases h2 : env.downloadOk
            · right; right
              exact ⟨("edit. s3://") ++ p.bucket ++ ("/") ++ obj.name,
                by simp [Provider.edit, hobj, hty, h1, h2]⟩
            · left; simp [Provider.edit, hobj, hty, h1, h2]
          · left; simp [Provider.edit, hobj, hty, h1]
      | Bucket => right; right; exact ⟨p.statusMsg, by simp [Provider.edit, hobj, hty]⟩
      | PreDir => right; right; exact ⟨p.statusMsg, by simp [Provider.edit, hobj, hty]⟩
      | Dir => right; right; exact ⟨p.statusMsg, by simp [Provider.edit, hobj, hty]⟩

/-- Only the status line may differ after a continuing download. -/
theorem inv_download (env : Env) (p : Provider) (h : Inv p) (q : Provider)
    (hq : (Provider.download env p).1 = Outcome.next q) : Inv q := by
  rcases download_shape env p with h1 | h1 | ⟨m, h1⟩ <;> rw [h1] at hq
  · exact absurd hq (by simp)
  · exact absurd hq (by simp)
  · rw [← Outcome.next.inj hq]
    exact Inv.of_fields h rfl rfl rfl

/-- Only the status line may differ after a continuing open. -/
theorem inv_openObj (env : Env) (p : Provider) (h : Inv p) (q : Provider)
    (hq : (Provider.openObj env p).1 = Outcome.next q) : Inv q := by
  rcases openObj_shape env p with h1 | h1 | ⟨m, h1⟩ <;> rw [h1] at hq
  · exact absurd hq (by simp)
  · exact absurd hq (by simp)
  · rw [← Outcome.next.inj hq]
    exact Inv.of_fields h rfl rfl rfl

/-- Only the status line may differ after a continuing edit. -/
theorem inv_edit (env : Env) (p : Provider) (h : Inv p) (q : Provider)
    (hq : (Provider.edit env p).1 = Outcome.next q) : Inv q := by
  rcases edit_shape env p with h1 | h1 | ⟨m, h1⟩ <;> rw [h1] at hq
  · exact absurd hq (by simp)
  · exact absurd hq (by simp)
  · rw [← Outcome.next.inj hq]
    exact Inv.of_fields h rfl rfl rfl

/-- A root node is node 0: its parent is `none`, and under the invariant
only node 0 is parentless. -/
theorem isRoot_navigator_zero (p : Provider) (h : Inv p)
    (hr : (p.currentNode).IsRoot = true) : p.navigator = 0 := by
  by_contra hne
  have := h.nonRootParent p.navigator h.navValid hne
  unfold Node.IsRoot Provider.currentNode at hr
  rw [Option.isNone_iff_eq_none] at hr
  rw [hr] at this
  exact absurd this (by simp)

/-- A continuing reload preserves the invariant. -/
theorem inv_reload (env : Env) (p : Provider) (h : Inv p) (q : Provider)
    (effs : List Eff) (hq : Provider.reload env p = (Outcome.next q, effs)) :
    Inv q := by
  unfold Provider.reload at hq
  split_ifs at hq with hr hbr
  · cases henv : env.listBuckets with
    | none =>
        rw [henv] at hq
        exact absurd hq (by simp)
    | some bs =>
        rw [henv] at hq
        have hq' := Outcome.next.inj (congrArg Prod.fst hq)
        rw [← hq']
        exact inv_setObjectsHere p h (listBucketsResult bs)
          (fun _ => listBucketsResult_bucket bs)
  · cases henv : ListObjects env p.bucket ("") with
    | none =>
        rw [henv] at hq
        exact absurd hq (by simp)
    | some objs =>
        rw [henv] at hq
        have hq' := Outcome.next.inj (congrArg Prod.fst hq)
        rw [← hq']
        refine inv_setObjectsHere p h objs (fun hnav => ?_)
        exfalso
        apply hr
        unfold Node.IsRoot Provider.currentNode
        rw [hnav, h.rootParent]
        rfl
  · cases henv : ListObjects env p.bucket (p.currentNode).key with
    | none =>
        rw [henv] at hq
        exact absurd hq (by simp)
    | some objs =>
        rw [henv] at hq
        have hq' := Outcome.next.inj (congrArg Prod.fst hq)
        rw [← hq']
        refine inv_setObjectsHere p h objs (fun hnav => ?_)
        exfalso
        apply hr
        unfold Node.IsRoot Provider.currentNode
        rw [hnav, h.rootParent]
        rfl

/-- A successful cache lookup yields a pair of the children list. -/
theorem getChild_mem (n : Node) (key : String) (cid : NodeId)
    (h : n.GetChild key = some cid) : ∃ k, (k, cid) ∈ n.children := by
  unfold Node.GetChild at h
  cases hf : n.children.find? (fun kc => kc.1 == key) with
  | none =>
      rw [hf] at h
      exact absurd h (by simp)
  | some kc =>
      rw [hf] at h
      have h2 : kc.2 = cid := by simpa using h
      refine ⟨kc.1, ?_⟩
      rw [← h2]
      have := List.mem_of_find?_eq_some hf
      simpa using this

/-- A positive membership test yields a cached child. -/
theorem isExistChildren_getChild (n : Node) (key : String)
    (h : n.IsExistChildren key = true) : ∃ c, n.GetChild key = some c := by
  unfold Node.IsExistChildren at h
  unfold Node.GetChild
  obtain ⟨kc, hmem, hkc⟩ := List.any_eq_true.mp h
  have : (n.children.find? fun kc => kc.1 == key).isSome :=
    List.find?_isSome.mpr ⟨kc, hmem, hkc⟩
  obtain ⟨kc', hf⟩ := Option.isSome_iff_exists.mp this
  exact ⟨kc'.2, by rw [hf]; rfl⟩

/-- A continuing activation preserves the invariant. -/
theorem inv_showObj (env : Env) (p : Provider) (obj : S3Object) (h : Inv p)
    (q : Provider) (effs : List Eff)
    (hq : Provider.showObj env p obj = (Outcome.next q, effs)) : Inv q := by
  unfold Provider.showObj at hq
  cases hty : obj.objType with
  | Bucket =>
      rw [hty] at hq
      have h1 : Inv { p with bucket := obj.name } := Inv.of_fields h rfl rfl rfl
      by_cases hex :
          (Provider.currentNode { p with bucket := obj.name }).IsExistChildren obj.name
      · rw [if_pos hex] at hq
        unfold Provider.moveNext at hq
        cases hgc : (Provider.currentNode { p with bucket := obj.name }).GetChild obj.name with
        | none =>
            rw [hgc] at hq
            exact absurd hq (by simp)
        | some cid =>
            rw [hgc] at hq
            have hq' := Outcome.next.inj (congrArg Prod.fst hq)
            rw [← hq']
            exact inv_moveNextState _ h1 cid (getChild_mem _ _ _ hgc)
      · rw [if_neg hex] at hq
        cases henv : ListObjects env obj.name ("") with
        | none =>
            rw [henv] at hq
            exact absurd hq (by simp)
        | some objs =>
            rw [henv] at hq
            have hq' := Outcome.next.inj (congrArg Prod.fst hq)
            rw [← hq']
            exact inv_loadNextState _ h1 obj.name objs
  | Dir =>
      rw [hty] at hq
      by_cases hex : (p.currentNode).IsExistChildren obj.name
      · rw [if_pos hex] at hq
        unfold Provider.moveNext at hq
        cases hgc : (p.currentNode).GetChild obj.name with
        | none =>
            rw [hgc] at hq
            exact absurd hq (by simp)
        | some cid =>
            rw [hgc] at hq
            have hq' := Outcome.next.inj (congrArg Prod.fst hq)
            rw [← hq']
            exact inv_moveNextState _ h cid (getChild_mem _ _ _ hgc)
      · rw [if_neg hex] at hq
        cases henv : ListObjects env p.bucket obj.name with
        | none =>
            rw [henv] at hq
            exact absurd hq (by simp)
        | some objs =>
            rw [henv] at hq
            have hq' := Outcome.next.inj (congrArg Prod.fst hq)
            rw [← hq']
            exact inv_loadNextState _ h obj.name objs
  | PreDir =>
      rw [hty] at hq
      exact inv_loadPrev p h q effs hq
  | Object =>
      rw [hty] at hq
      have hq' := Outcome.next.inj (congrArg Prod.fst hq)
      rw [← hq']
      exact h

set_option maxHeartbeats 1000000 in
/-- A continuing List-mode dispatch preserves the invariant. -/
theorem inv_listEvent (env : Env) (ev : Event) (p : Provider) (h : Inv p)
    (q : Provider) (effs : List Eff)
    (hq : Provider.listEvent env ev p = (Outcome.next q, effs)) : Inv q := by
  unfold Provider.listEvent at hq
  by_cases h1 : ev.key = TermKey.Esc ∨ ev.ch = 'q'
  · rw [if_pos h1] at hq
    exact absurd hq (by simp)
  rw [if_neg h1] at hq
  by_cases h2 : ev.ch = 'j' ∨ ev.key = TermKey.ArrowDown ∨ ev.key = TermKey.CtrlN
  · rw [if_pos h2] at hq
    dsimp only at hq
    have hq1 := congrArg Prod.fst hq
    dsimp only at hq1
    rw [← Outcome.next.inj hq1]
    exact inv_update_current p h _ _ rfl rfl rfl rfl
  rw [if_neg h2] at hq
  by_cases h3 : ev.ch = 'k' ∨ ev.key = TermKey.ArrowUp ∨ ev.key = TermKey.CtrlP
  · rw [if_pos h3] at hq
    dsimp only at hq
    have hq1 := congrArg Prod.fst hq
    dsimp only at hq1
    rw [← Outcome.next.inj hq1]
    exact inv_update_current p h _ _ rfl rfl rfl rfl
  rw [if_neg h3] at hq
  by_cases h4 : ev.ch = 'm'
  · rw [if_pos h4] at hq
    have hq1 := congrArg Prod.fst hq
    dsimp only at hq1
    rw [← Outcome.next.inj hq1]
    exact Inv.of_fields h rfl rfl rfl
  rw [if_neg h4] at hq
  by_cases h5 : ev.ch = 'd'
  · rw [if_pos h5] at hq
    cases hobj : p.listView.getCursorObject with
    | none =>
        rw [hobj] at hq
        exact absurd hq (by simp)
    | some obj =>
        rw [hobj] at hq
        have hq1 := congrArg Prod.fst hq
        dsimp only at hq1
        rw [← Outcome.next.inj hq1]
        exact Inv.of_fields h rfl rfl rfl
  rw [if_neg h5] at hq
  by_cases h6 : ev.ch = 'h' ∨ ev.key = TermKey.ArrowLeft
  · rw [if_pos h6] at hq
    by_cases hroot : (p.currentNode).IsRoot = true
    · rw [if_pos hroot] at hq
      have hq1 := congrArg Prod.fst hq
      dsimp only at hq1
      rw [← Outcome.next.inj hq1]
      exact h
    · rw [if_neg hroot] at hq
      exact inv_loadPrev p h q effs hq
  rw [if_neg h6] at hq
  by_cases h7 : ev.ch = 'r'
  · rw [if_pos h7] at hq
    exact inv_reload env p h q effs hq
  rw [if_neg h7] at hq
  by_cases h8 : ev.ch = 'w'
  · rw [if_pos h8] at hq
    exact inv_download env p h q (congrArg Prod.fst hq)
  rw [if_neg h8] at hq
  by_cases h9 : ev.ch = 'o'
  · rw [if_pos h9] at hq
    exact inv_openObj env p h q (congrArg Prod.fst hq)
  rw [if_neg h9] at hq
  by_cases h10 : ev.ch = 'e'
  · rw [if_pos h10] at hq
    exact inv_edit env p h q (congrArg Prod.fst hq)
  rw [if_neg h10] at hq
  by_cases h11 : ev.ch = 'l' ∨ ev.key = TermKey.ArrowRight ∨ ev.key = TermKey.Enter
  · rw [if_pos h11] at hq
    cases hobj : p.listView.getCursorObject with
    | none =>
        rw [hobj] at hq
        exact absurd hq (by simp)
    | some obj =>
        rw [hobj] at hq
        exact inv_showObj env p obj h q effs hq
  rw [if_neg h11] at hq
  have hq1 := congrArg Prod.fst hq
  dsimp only at hq1
  rw [← Outcome.next.inj hq1]
  exact h

/-- A continuing Menu-mode dispatch preserves the invariant. -/
theorem inv_menuEvent (env : Env) (ev : Event) (p : Provider) (h : Inv p)
    (q : Provider) (effs : List Eff)
    (hq : Provider.menuEvent env ev p = (Outcome.next q, effs)) : Inv q := by
  unfold Provider.menuEvent at hq
  split_ifs at hq with h1 h2 h3 h4
  · have hq' := Outcome.next.inj (congrArg Prod.fst hq)
    rw [← hq']
    exact Inv.of_fields h rfl rfl rfl
  · have hq' := Outcome.next.inj (congrArg Prod.fst hq)
    rw [← hq']
    exact Inv.of_fields h rfl rfl rfl
  · have hq' := Outcome.next.inj (congrArg Prod.fst hq)
    rw [← hq']
    exact Inv.of_fields h rfl rfl rfl
  · cases hitem : menuItems.getD p.menuPos Command.CommandDownload with
    | CommandDownload =>
        rw [hitem] at hq
        dsimp only at hq
        cases hact : (Provider.download env p).1 with
        | next p1 =>
            rw [hact] at hq
            simp only [Prod.mk.injEq] at hq
            obtain ⟨hq1, hq2⟩ := hq
            rw [← Outcome.next.inj hq1]
            exact Inv.of_fields (inv_download env p h p1 hact) rfl rfl rfl
        | exited => rw [hact] at hq; simp at hq
        | panicked => rw [hact] at hq; simp at hq
        | quit p1 => rw [hact] at hq; simp at hq
    | CommandOpen =>
        rw [hitem] at hq
        dsimp only at hq
        cases hact : (Provider.openObj env p).1 with
        | next p1 =>
            rw [hact] at hq
            simp only [Prod.mk.injEq] at hq
            obtain ⟨hq1, hq2⟩ := hq
            rw [← Outcome.next.inj hq1]
            exact Inv.of_fields (inv_openObj env p h p1 hact) rfl rfl rfl
        | exited => rw [hact] at hq; simp at hq
        | panicked => rw [hact] at hq; simp at hq
        | quit p1 => rw [hact] at hq; simp at hq
    | CommandEdit =>
        rw [hitem] at hq
        dsimp only at hq
        cases hact : (Provider.edit env p).1 with
        | next p1 =>
            rw [hact] at hq
            simp only [Prod.mk.injEq] at hq
            obtain ⟨hq1, hq2⟩ := hq
            rw [← Outcome.next.inj hq1]
            exact Inv.of_fields (inv_edit env p h p1 hact) rfl rfl rfl
        | exited => rw [hact] at hq; simp at hq
        | panicked => rw [hact] at hq; simp at hq
        | quit p1 => rw [hact] at hq; simp at hq
  · have hq' := Outcome.next.inj (congrArg Prod.fst hq)
    rw [← hq']
    exact h

/-- A continuing Detail-mode dispatch preserves the invariant. -/
theorem inv_detailEvent (ev : Event) (p : Provider) (h : Inv p)
    (q : Provider) (effs : List Eff)
    (hq : Provider.detailEvent ev p = (Outcome.next q, effs)) : Inv q := by
  unfold Provider.detailEvent at hq
  split_ifs at hq with h1 h2 h3 <;>
    (have hq' := Outcome.next.inj (congrArg Prod.fst hq)
     rw [← hq']
     exact Inv.of_fields h rfl rfl rfl)

/-- A continuing dispatch preserves the invariant. -/
theorem inv_handle (env : Env) (ev : Event) (p : Provider) (h : Inv p)
    (q : Provider) (effs : List Eff)
    (hq : Provider.Handle env ev p = (Outcome.next q, effs)) : Inv q := by
  unfold Provider.Handle at hq
  cases hst : p.status with
  | StateList =>
      rw [hst] at hq
      exact inv_listEvent env ev p h q effs hq
  | StateMenu =>
      rw [hst] at hq
      exact inv_menuEvent env ev p h q effs hq
  | StateDetail =>
      rw [hst] at hq
      exact inv_detailEvent ev p h q effs hq

/-- Every reachable session state satisfies the invariant. -/
theorem reachable_inv (p : Provider) (h : Reachable p) : Inv p := by
  induction h with
  | boot buckets => exact inv_newProvider buckets
  | step env ev p p' effs hp hstep ih => exact inv_handle env ev p ih p' effs hstep

/-- Setting the active bucket does not move the navigator. -/
theorem currentNode_bucket (p : Provider) (b : String) :
    Provider.currentNode { p with bucket := b } = Provider.currentNode p := rfl

/-- Activation on a bucket row, written out. -/
theorem showObj_eq_bucket (env : Env) (p : Provider) (obj : S3Object)
    (hty : obj.objType = ObjType.Bucket) :
    Provider.showObj env p obj =
      (if (p.currentNode).IsExistChildren obj.name then
         Provider.moveNext { p with bucket := obj.name } obj.name
       else
         match ListObjects env obj.name ("") with
         | none => (Outcome.exited,
             [Eff.remote (RemoteCall.listObjectsCall obj.name ("")),
               Eff.logMsg ("failed to upload object")])
         | some objs =>
             ((Provider.loadNext { p with bucket := obj.name } obj.name objs).1,
               Eff.remote (RemoteCall.listObjectsCall obj.name ("")) ::
                 (Provider.loadNext { p with bucket := obj.name } obj.name objs).2)) := by
  obtain ⟨ty, name, date, size⟩ := obj
  cases hty
  rfl

/-- Activation on a directory row, written out. -/
theorem showObj_eq_dir (env : Env) (p : Provider) (obj : S3Object)
    (hty : obj.objType = ObjType.Dir) :
    Provider.showObj env p obj =
      (if (p.currentNode).IsExistChildren obj.name then
         Provider.moveNext p obj.name
       else
         match ListObjects env p.bucket obj.name with
         | none => (Outcome.exited,
             [Eff.remote (RemoteCall.listObjectsCall p.bucket obj.name),
               Eff.logMsg ("failed to upload object")])
         | some objs =>
             ((Provider.loadNext p obj.name objs).1,
               Eff.remote (RemoteCall.listObjectsCall p.bucket obj.name) ::
                 (Provider.loadNext p obj.name objs).2)) := by
  obtain ⟨ty, name, date, size⟩ := obj
  cases hty
  rfl

/-- Activation on the `..` row is exactly the unguarded ascent. -/
theorem showObj_eq_predir (env : Env) (p : Provider) (obj : S3Object)
    (hty : obj.objType = ObjType.PreDir) :
    Provider.showObj env p obj = p.loadPrev := by
  obtain ⟨ty, name, date, size⟩ := obj
  cases hty
  rfl

/-- A hit in the cache makes `moveNext` descend to the found child. -/
theorem moveNext_eq (p : Provider) (key : String) (c : NodeId)
    (hgc : (p.currentNode).GetChild key = some c) :
    Provider.moveNext p key =
      (Outcome.next (p.moveNextState c),
        [Eff.logMsg (("Move next. child:") ++ (p.nodes.getD c dummyNode).key)]) := by
  unfold Provider.moveNext
  rw [hgc]

/-- The node shown after a fresh attach is the fresh child. -/
theorem loadNextState_currentNode (p : Provider) (key : String)
    (objs : List S3Object) :
    (p.loadNextState key objs).currentNode = NewNode key (some p.navigator) objs := by
  unfold Provider.loadNextState Provider.currentNode
  dsimp only
  rw [List.getD_append_right _ _ dummyNode _ (by rw [List.length_set])]
  rw [List.length_set]
  simp

/-- With a parent present the ascent succeeds and moves the navigator to
it. -/
theorem loadPrev_of_parent (q : Provider) (pid : NodeId)
    (hpar : (q.currentNode).parent = some pid) :
    Provider.loadPrev q =
      (Outcome.next { q with
          navigator := pid
          listView := ListView.updateList (q.nodes.getD pid dummyNode) },
        [Eff.logMsg (("Load prev. parent:") ++ (q.nodes.getD pid dummyNode).key)]) := by
  unfold Provider.loadPrev
  rw [hpar]

/-- Claim C1: in every reachable session state, descending into a bucket or
directory row — whether the descent is a cache hit on an already attached
child or a cache miss that creates and attaches a fresh child — yields a
node whose parent link is the node descended from, so the subsequent
ascent returns exactly that node. -/
theorem claim1_descend_then_ascend_roundtrip (p : Provider) (hreach : Reachable p)
    (env : Env) (obj : S3Object) (q : Provider) (effs : List Eff)
    (hty : obj.objType = ObjType.Bucket ∨ obj.objType = ObjType.Dir)
    (hstep : Provider.showObj env p obj = (Outcome.next q, effs)) :
    (q.currentNode).parent = some p.navigator ∧
      ∃ q' effs', Provider.loadPrev q = (Outcome.next q', effs') ∧
        q'.navigator = p.navigator := by
  have h := reachable_inv p hreach
  have hmain : (q.currentNode).parent = some p.navigator := by
    rcases hty with hty | hty
    · rw [showObj_eq_bucket env p obj hty] at hstep
      by_cases hex : (p.currentNode).IsExistChildren obj.name
      · rw [if_pos hex] at hstep
        obtain ⟨c, hgc⟩ := isExistChildren_getChild _ _ hex
        have hgc1 : (Provider.currentNode { p with bucket := obj.name }).GetChild
            obj.name = some c := by
          rw [currentNode_bucket]
          exact hgc
        rw [moveNext_eq _ _ _ hgc1] at hstep
        have hq := Outcome.next.inj (congrArg Prod.fst hstep)
        rw [← hq]
        obtain ⟨k, hk⟩ := getChild_mem _ _ _ hgc
        exact (h.childValid p.navigator h.navValid k c hk).2
      · rw [if_neg hex] at hstep
        cases henv : ListObjects env obj.name ("") with
        | none =>
            rw [henv] at hstep
            exact absurd hstep (by simp)
        | some objs =>
            rw [henv] at hstep
            have hq := Outcome.next.inj (congrArg Prod.fst hstep)
            rw [← hq]
            rw [loadNextState_currentNode]
            rfl
    · rw [showObj_eq_dir env p obj hty] at hstep
      by_cases hex : (p.currentNode).IsExistChildren obj.name
      · rw [if_pos hex] at hstep
        obtain ⟨c, hgc⟩ := isExistChildren_getChild _ _ hex
        rw [moveNext_eq _ _ _ hgc] at hstep
        have hq := Outcome.next.inj (congrArg Prod.fst hstep)
        rw [← hq]
        obtain ⟨k, hk⟩ := getChild_mem _ _ _ hgc
        exact (h.childValid p.navigator h.navValid k c hk).2
      · rw [if_neg hex] at hstep
        cases henv : ListObjects env p.bucket obj.name with
        | none =>
            rw [henv] at hstep
            exact absurd hstep (by simp)
        | some objs =>
            rw [henv] at hstep
            have hq := Outcome.next.inj (congrArg Prod.fst hstep)
            rw [← hq]
            rw [loadNextState_currentNode]
            rfl
  refine ⟨hmain, ?_⟩
  exact ⟨_, _, loadPrev_of_parent q p.navigator hmain, rfl⟩

/-- Witness for C1: booting on the sample store and descending into bucket
`alpha` produces a node whose ascent returns the root. -/
theorem claim1_descend_then_ascend_roundtrip_witness :
    (Provider.currentNode demoAfter).parent = some 0 ∧
      ∃ q' effs', Provider.loadPrev demoAfter = (Outcome.next q', effs') ∧
        q'.navigator = 0 := by
  exact claim1_descend_then_ascend_roundtrip demoBoot (Reachable.boot demoBuckets)
    demoEnv demoBucketObj demoAfter
    [Eff.remote (RemoteCall.listObjectsCall ("alpha") ("")),
      Eff.logMsg ("Load next. parent:, child:alpha")]
    (Or.inl rfl) (by rfl)

/-- Claim C2: descending into a key already attached under the current node
returns the cached child (the arena is untouched, the navigator moves to
the stored child id, so the child keeps its previous listing and cursor
state) and performs no remote listing call; when the key is unseen, exactly
one remote listing call is made. -/
theorem claim2_cached_descent_no_remote (env : Env) (p : Provider) (obj : S3Object)
    (hty : obj.objType = ObjType.Bucket ∨ obj.objType = ObjType.Dir) :
    ((p.currentNode).IsExistChildren obj.name = true →
      ∃ c, (p.currentNode).GetChild obj.name = some c ∧
        remoteCalls (Provider.showObj env p obj).2 = [] ∧
        ∃ q, (Provider.showObj env p obj).1 = Outcome.next q ∧
          q.navigator = c ∧ q.nodes = p.nodes) ∧
    ((p.currentNode).IsExistChildren obj.name = false →
      (obj.objType = ObjType.Bucket →
        remoteCalls (Provider.showObj env p obj).2 =
          [RemoteCall.listObjectsCall obj.name ("")]) ∧
      (obj.objType = ObjType.Dir →
        remoteCalls (Provider.showObj env p obj).2 =
          [RemoteCall.listObjectsCall p.bucket obj.name])) := by
  rcases hty with hty | hty
  · rw [showObj_eq_bucket env p obj hty]
    constructor
    · intro hex
      rw [if_pos hex]
      obtain ⟨c, hgc⟩ := isExistChildren_getChild _ _ hex
      have hgc1 : (Provider.currentNode { p with bucket := obj.name }).GetChild
          obj.name = some c := by
        rw [currentNode_bucket]
        exact hgc
      rw [moveNext_eq _ _ _ hgc1]
      exact ⟨c, hgc, rfl, _, rfl, rfl, rfl⟩
    · intro hex
      rw [if_neg (by simp [hex])]
      cases henv : ListObjects env obj.name ("") with
      | none =>
          refine ⟨fun _ => rfl, fun hd => ?_⟩
          rw [hty] at hd
          exact absurd hd (by simp)
      | some objs =>
          refine ⟨fun _ => rfl, fun hd => ?_⟩
          rw [hty] at hd
          exact absurd hd (by simp)
  · rw [showObj_eq_dir env p obj hty]
    constructor
    · intro hex
      rw [if_pos hex]
      obtain ⟨c, hgc⟩ := isExistChildren_getChild _ _ hex
      rw [moveNext_eq _ _ _ hgc]
      exact ⟨c, hgc, rfl, _, rfl, rfl, rfl⟩
    · intro hex
      rw [if_neg (by simp [hex])]
      cases henv : ListObjects env p.bucket obj.name with
      | none =>
          refine ⟨fun hb => ?_, fun _ => rfl⟩
          rw [hty] at hb
          exact absurd hb (by simp)
      | some objs =>
          refine ⟨fun hb => ?_, fun _ => rfl⟩
          rw [hty] at hb
          exact absurd hb (by simp)

/-- Witness for C2: at the root with bucket `alpha` already cached,
re-activating its row reuses child 1 of the arena and performs no remote
call. -/
theorem claim2_cached_descent_no_remote_witness :
    ∃ c, (Provider.currentNode demoBack).GetChild ("alpha") = some c ∧
      remoteCalls (Provider.showObj demoEnv demoBack demoBucketObj).2 = [] ∧
      ∃ q, (Provider.showObj demoEnv demoBack demoBucketObj).1 = Outcome.next q ∧
        q.navigator = c ∧ q.nodes = demoBack.nodes :=
  (claim2_cached_descent_no_remote demoEnv demoBack demoBucketObj (Or.inl rfl)).1 rfl

/-- Claim C9: in every reachable session state the root listing (built from
the bucket listing) holds only bucket rows; a listing containing an UpDir
row belongs to a non-root node; and activating the UpDir row under the
cursor always finds a parent, so the unguarded ascent on that path never
dereferences a nil parent. -/
theorem claim9_updir_only_below_root (p : Provider) (hreach : Reachable p) :
    (∀ o ∈ (p.nodes.getD 0 dummyNode).objects, o.objType = ObjType.Bucket) ∧
    (∀ i, i < p.nodes.length →
      (∃ o ∈ (p.nodes.getD i dummyNode).objects, o.objType = ObjType.PreDir) →
      ((p.nodes.getD i dummyNode).parent).isSome = true) ∧
    (∀ obj env, p.listView.getCursorObject = some obj →
      obj.objType = ObjType.PreDir →
      ∃ q effs, Provider.showObj env p obj = (Outcome.next q, effs) ∧
        (p.currentNode).parent = some q.navigator) := by
  have h := reachable_inv p hreach
  refine ⟨h.rootBuckets, ?_, ?_⟩
  · intro i hi hex
    obtain ⟨o, ho, hty⟩ := hex
    by_cases h0 : i = 0
    · subst h0
      have hb := h.rootBuckets o ho
      rw [hty] at hb
      exact absurd hb (by simp)
    · exact h.nonRootParent i hi h0
  · intro obj env hcur hty
    have hmem : obj ∈ p.listView.objects := by
      unfold ListView.getCursorObject at hcur
      exact List.get?_mem hcur
    rw [h.viewSync] at hmem
    have hnz : p.navigator ≠ 0 := by
      intro h0
      unfold Provider.currentNode at hmem
      rw [h0] at hmem
      have hb := h.rootBuckets obj hmem
      rw [hty] at hb
      exact absurd hb (by simp)
    have hpar := h.nonRootParent p.navigator h.navValid hnz
    obtain ⟨pid, hpid⟩ := Option.isSome_iff_exists.mp hpar
    refine ⟨{ p with
        navigator := pid
        listView := ListView.updateList (p.nodes.getD pid dummyNode) },
      [Eff.logMsg (("Load prev. parent:") ++ (p.nodes.getD pid dummyNode).key)], ?_, ?_⟩
    · rw [showObj_eq_predir env p obj hty]
      exact loadPrev_of_parent p pid hpid
    · exact hpid

/-- Witness for C9: after descending into the sample bucket the cursor sits
on the `..` row, and activating it ascends to the root. -/
theorem claim9_updir_only_below_root_witness :
    ∃ q effs, Provider.showObj demoEnv demoAfter
        (NewS3Object ObjType.PreDir ("..") none none) = (Outcome.next q, effs) ∧
      (Provider.currentNode demoAfter).parent = some q.navigator := by
  have hre : Reachable demoAfter :=
    Reachable.step demoEnv evL demoBoot demoAfter
      [Eff.remote (RemoteCall.listObjectsCall ("alpha") ("")),
        Eff.logMsg ("Load next. parent:, child:alpha")]
      (Reachable.boot demoBuckets) (by rfl)
  exact (claim9_updir_only_below_root demoAfter hre).2.2
    (NewS3Object ObjType.PreDir ("..") none none) demoEnv (by rfl) rfl

/-- The Menu-mode handler never signals the quit interrupt. -/
theorem menuEvent_fst_no_quit (env : Env) (ev : Event) (p : Provider) (q : Provider) :
    (Provider.menuEvent env ev p).1 ≠ Outcome.quit q := by
  unfold Provider.menuEvent
  split_ifs with h1 h2 h3 h4
  · simp
  · simp
  · simp
  · dsimp only
    cases hitem : menuItems.getD p.menuPos Command.CommandDownload with
    | CommandDownload =>
        rcases download_shape env p with hs | hs | ⟨m, hs⟩ <;> rw [hs] <;> simp
    | CommandOpen =>
        rcases openObj_shape env p with hs | hs | ⟨m, hs⟩ <;> rw [hs] <;> simp
    | CommandEdit =>
        rcases edit_shape env p with hs | hs | ⟨m, hs⟩ <;> rw [hs] <;> simp
  · simp

/-- The Detail-mode handler never signals the quit interrupt. -/
theorem detailEvent_fst_no_quit (ev : Event) (p : Provider) (q : Provider) :
    (Provider.detailEvent ev p).1 ≠ Outcome.quit q := by
  unfold Provider.detailEvent
  split_ifs <;> simp

/-- Claim C10: the quit interrupt can be signalled only from List mode; in
Menu and Detail mode the `q` key is a cancel that returns to List mode
without signalling termination. -/
theorem claim10_quit_only_from_list (env : Env) (ev : Event) (p : Provider)
    (hwf : Event.wf ev) :
    (∀ q effs, Provider.Handle env ev p = (Outcome.quit q, effs) →
      p.status = ProviderStatus.StateList) ∧
    ((p.status = ProviderStatus.StateMenu ∨ p.status = ProviderStatus.StateDetail) →
      ev.ch = 'q' →
      Provider.Handle env ev p =
        (Outcome.next { p with status := ProviderStatus.StateList }, [])) := by
  constructor
  · intro q effs hq
    cases hst : p.status with
    | StateList => rfl
    | StateMenu =>
        exfalso
        unfold Provider.Handle at hq
        rw [hst] at hq
        exact menuEvent_fst_no_quit env ev p q (congrArg Prod.fst hq)
    | StateDetail =>
        exfalso
        unfold Provider.Handle at hq
        rw [hst] at hq
        exact detailEvent_fst_no_quit ev p q (congrArg Prod.fst hq)
  · intro hst hch
    have hk : ev.key = TermKey.KNone := hwf (by rw [hch]; decide)
    have hnc1 : ¬(ev.ch = 'j' ∨ ev.key = TermKey.ArrowDown ∨ ev.key = TermKey.CtrlN) := by
      rw [hch, hk]
      decide
    have hnc2 : ¬(ev.ch = 'k' ∨ ev.key = TermKey.ArrowUp ∨ ev.key = TermKey.CtrlP) := by
      rw [hch, hk]
      decide
    rcases hst with hst | hst
    · unfold Provider.Handle
      rw [hst]
      unfold Provider.menuEvent
      rw [if_neg hnc1, if_neg hnc2, if_pos hch]
    · unfold Provider.Handle
      rw [hst]
      unfold Provider.detailEvent
      rw [if_neg hnc1, if_neg hnc2, if_pos hch]

/-- Witness for C10: pressing `q` in a Detail-mode session cancels back to
List mode rather than quitting. -/
theorem claim10_quit_only_from_list_witness :
    Provider.Handle demoEnv evQ demoDetail =
      (Outcome.next { demoDetail with status := ProviderStatus.StateList }, []) :=
  (claim10_quit_only_from_list demoEnv evQ demoDetail (fun _ => rfl)).2 (Or.inr rfl) rfl

/-- Counterexample to C3 as stated: a transport failure in an interactive
listing (activating a bucket row after boot, with the listing call failing)
terminates the process — it is not reported on the status line with the
session continuing. -/
theorem claim3_counterexample :
    demoBoot.status = ProviderStatus.StateList ∧
    demoEnvListFail.listObjects ("alpha") ("") = none ∧
    (Provider.Handle demoEnvListFail evL demoBoot).1 = Outcome.exited :=
  ⟨rfl, rfl, by rfl⟩

/-- Environment whose bucket-listing call fails (transport error). -/
def demoEnvBucketsFail : Env :=
  { demoEnv with listBuckets := none }

/-- A session two levels down: the navigator sits on the `logs/` node
attached under the `alpha` bucket node, so its scope is neither the root
nor a bucket root. -/
def demoDeep : Provider :=
  { demoCursor1 with
      nodes := [demoRootAfter,
        { demoChild with position := 1, children := [(("logs/" : String), 2)] },
        NewNode ("logs/") (some 1) demoObjs]
      navigator := 2
      listView := { objects := demoObjs, cursorPos := 0 } }

/-- Claim C3 (amended): every transport failure during an interactive
listing or download logs the error and terminates the process with a
nonzero exit — the same as the bootstrap path; it is not surfaced on the
status line and the session does not continue.  The eight interactive
failure sites: the listing of a bucket-row descent, the listing of a
directory-row descent, the three reload scopes (root, bucket root,
prefix), and the transfer of the download, open and edit actions. -/
theorem claim3_interactive_transport_failure_exits (env : Env) (p : Provider)
    (obj : S3Object) :
    (obj.objType = ObjType.Bucket →
      (p.currentNode).IsExistChildren obj.name = false →
      env.listObjects obj.name ("") = none →
      (Provider.showObj env p obj).1 = Outcome.exited) ∧
    (obj.objType = ObjType.Dir →
      (p.currentNode).IsExistChildren obj.name = false →
      env.listObjects p.bucket obj.name = none →
      (Provider.showObj env p obj).1 = Outcome.exited) ∧
    ((p.currentNode).IsRoot = true → env.listBuckets = none →
      (Provider.reload env p).1 = Outcome.exited) ∧
    ((p.currentNode).IsRoot = false → Provider.IsBucketRoot p = true →
      env.listObjects p.bucket ("") = none →
      (Provider.reload env p).1 = Outcome.exited) ∧
    ((p.currentNode).IsRoot = false → Provider.IsBucketRoot p = false →
      env.listObjects p.bucket (p.currentNode).key = none →
      (Provider.reload env p).1 = Outcome.exited) ∧
    (p.listView.getCursorObject = some obj → obj.objType = ObjType.Object →
      env.createFile = true → env.downloadOk = false →
      (Provider.download env p).1 = Outcome.exited) ∧
    (p.listView.getCursorObject = some obj → obj.objType = ObjType.Object →
      env.createFile = true → env.downloadOk = false →
      (Provider.openObj env p).1 = Outcome.exited) ∧
    (p.listView.getCursorObject = some obj → obj.objType = ObjType.Object →
      env.createFile = true → env.downloadOk = false →
      (Provider.edit env p).1 = Outcome.exited) := by
  refine ⟨?_, ?_, ?_, ?_, ?_, ?_, ?_, ?_⟩
  · intro hty hex henv
    rw [showObj_eq_bucket env p obj hty, if_neg (by simp [hex])]
    have hlo : ListObjects env obj.name ("") = none := by
      unfold ListObjects
      rw [henv]
      rfl
    rw [hlo]
  · intro hty hex henv
    rw [showObj_eq_dir env p obj hty, if_neg (by simp [hex])]
    have hlo : ListObjects env p.bucket obj.name = none := by
      unfold ListObjects
      rw [henv]
      rfl
    rw [hlo]
  · intro hroot henv
    unfold Provider.reload
    rw [if_pos hroot, henv]
  · intro hroot hbr henv
    unfold Provider.reload
    rw [if_neg (by simp [hroot]), if_pos hbr]
    have hlo : ListObjects env p.bucket ("") = none := by
      unfold ListObjects
      rw [henv]
      rfl
    rw [hlo]
  · intro hroot hbr henv
    unfold Provider.reload
    rw [if_neg (by simp [hroot]), if_neg (by simp [hbr])]
    have hlo : ListObjects env p.bucket (p.currentNode).key = none := by
      unfold ListObjects
      rw [henv]
      rfl
    rw [hlo]
  · intro hcur hty hcf hdl
    simp [Provider.download, hcur, hty, hcf, hdl]
  · intro hcur hty hcf hdl
    simp [Provider.openObj, hcur, hty, hcf, hdl]
  · intro hcur hty hcf hdl
    simp [Provider.edit, hcur, hty, hcf, hdl]

/-- Witness for C3 (amended), one concrete input per failure site: a
failing listing while activating bucket `alpha` and while activating
`logs/`; a failing reload at the root, at the bucket root and two levels
down; and a failing transfer in each of download, open and edit on
`readme.txt`. -/
theorem claim3_interactive_transport_failure_exits_witness :
    (Provider.showObj demoEnvListFail demoBoot demoBucketObj).1 = Outcome.exited ∧
    (Provider.showObj demoEnvListFail demoCursor1
        (NewS3Object ObjType.Dir ("logs/") none none)).1 = Outcome.exited ∧
    (Provider.reload demoEnvBucketsFail demoBoot).1 = Outcome.exited ∧
    (Provider.reload demoEnvListFail demoAfter).1 = Outcome.exited ∧
    (Provider.reload demoEnvListFail demoDeep).1 = Outcome.exited ∧
    (Provider.download demoEnvNoDownload demoCursor2).1 = Outcome.exited ∧
    (Provider.openObj demoEnvNoDownload demoCursor2).1 = Outcome.exited ∧
    (Provider.edit demoEnvNoDownload demoCursor2).1 = Outcome.exited :=
  ⟨(claim3_interactive_transport_failure_exits demoEnvListFail demoBoot
      demoBucketObj).1 rfl rfl rfl,
    (claim3_interactive_transport_failure_exits demoEnvListFail demoCursor1
      (NewS3Object ObjType.Dir ("logs/") none none)).2.1 rfl rfl rfl,
    (claim3_interactive_transport_failure_exits demoEnvBucketsFail demoBoot
      demoBucketObj).2.2.1 rfl rfl,
    (claim3_interactive_transport_failure_exits demoEnvListFail demoAfter
      demoBucketObj).2.2.2.1 rfl rfl rfl,
    (claim3_interactive_transport_failure_exits demoEnvListFail demoDeep
      demoBucketObj).2.2.2.2.1 rfl rfl rfl,
    (claim3_interactive_transport_failure_exits demoEnvNoDownload demoCursor2
      (NewS3Object ObjType.Object ("readme.txt") none (some 42))).2.2.2.2.2.1
      rfl rfl rfl rfl,
    (claim3_interactive_transport_failure_exits demoEnvNoDownload demoCursor2
      (NewS3Object ObjType.Object ("readme.txt") none (some 42))).2.2.2.2.2.2.1
      rfl rfl rfl rfl,
    (claim3_interactive_transport_failure_exits demoEnvNoDownload demoCursor2
      (NewS3Object ObjType.Object ("readme.txt") none (some 42))).2.2.2.2.2.2.2
      rfl rfl rfl rfl⟩

/-- Positions survive an in-place node update. -/
theorem getD_set_position (l : List Node) (nav : Nat) (upd : Node)
    (hf : upd.position = (l.getD nav dummyNode).position) (j : Nat) :
    ((l.set nav upd).getD j dummyNode).position = (l.getD j dummyNode).position := by
  by_cases hj : nav = j
  · subst hj
    rw [list_getD_set_any]
    split_ifs with hnl
    · rw [hf]
    · rw [List.getD_eq_default l dummyNode (Nat.le_of_not_lt hnl)]
  · rw [list_getD_set_ne l nav j upd dummyNode hj]

/-- The pane after a wholesale replacement. -/
theorem setObjectsHere_listView (p : Provider) (objs : List S3Object) :
    (p.setObjectsHere objs).listView = { p.listView with objects := objs } := rfl

/-- The current node after a wholesale replacement, when the navigator is in
bounds. -/
theorem setObjectsHere_currentNode (p : Provider) (objs : List S3Object)
    (hnav : p.navigator < p.nodes.length) :
    (p.setObjectsHere objs).currentNode = { p.currentNode with objects := objs } := by
  unfold Provider.setObjectsHere Provider.currentNode
  dsimp only
  exact list_getD_set_self _ _ _ _ hnav

/-- The state reached by reloading `demoCursor2` against an empty fresh
listing: one row, but the cursor still at index 2. -/
def demoCursor2Reloaded : Provider :=
  { demoCursor2 with
      nodes := [demoRootAfter,
        { demoChild with position := 2, objects := [NewS3Object ObjType.PreDir ("..") none none] }]
      listView := { objects := [NewS3Object ObjType.PreDir ("..") none none], cursorPos := 2 } }

/-- Counterexample to C4 as stated: reloading with a fresh listing of one
row while the cursor sits at index 2 leaves the cursor at 2 — not at
`min 2 (1-1) = 0` — dangling past the end of the new entries. -/
theorem claim4_counterexample :
    Provider.reload demoEnvEmptyList demoCursor2 =
      (Outcome.next demoCursor2Reloaded,
        [Eff.remote (RemoteCall.listObjectsCall ("alpha") (""))]) ∧
    demoCursor2Reloaded.listView.cursorPos = 2 ∧
    demoCursor2Reloaded.listView.objects.length = 1 ∧
    demoCursor2Reloaded.listView.cursorPos ≠
      min demoCursor2.listView.cursorPos (demoCursor2Reloaded.listView.objects.length - 1) ∧
    ¬ demoCursor2Reloaded.listView.cursorPos <
        demoCursor2Reloaded.listView.objects.length :=
  ⟨by rfl, rfl, rfl, by decide, by decide⟩

/-- Claim C4 (amended): a continuing reload replaces the current node's
entries wholesale (root scope refreshed from the bucket listing, other
scopes from a one-level listing) and mirrors them in the pane, but the
cursor is left exactly where it was: neither the pane cursor nor the node's
saved position is clamped into the new bounds. -/
theorem claim4_reload_replaces_entries_keeps_cursor (env : Env) (p : Provider)
    (q : Provider) (effs : List Eff) (hnav : p.navigator < p.nodes.length)
    (hq : Provider.reload env p = (Outcome.next q, effs)) :
    q.listView.cursorPos = p.listView.cursorPos ∧
    q.navigator = p.navigator ∧
    (q.currentNode).position = (p.currentNode).position ∧
    q.listView.objects = (q.currentNode).objects ∧
    ((p.currentNode).IsRoot = true →
      ∃ bs, env.listBuckets = some bs ∧ q.listView.objects = listBucketsResult bs) ∧
    ((p.currentNode).IsRoot = false →
      ∃ resp, q.listView.objects = listObjectsResult resp) := by
  unfold Provider.reload at hq
  split_ifs at hq with hr hbr
  · cases henv : env.listBuckets with
    | none =>
        rw [henv] at hq
        exact absurd hq (by simp)
    | some bs =>
        rw [henv] at hq
        have hq' := Outcome.next.inj (congrArg Prod.fst hq)
        rw [← hq']
        refine ⟨rfl, rfl, ?_, ?_, ?_, ?_⟩
        · rw [setObjectsHere_currentNode p _ hnav]
        · rw [setObjectsHere_currentNode p _ hnav]
          rfl
        · exact fun _ => ⟨bs, rfl, rfl⟩
        · intro hfalse
          rw [hr] at hfalse
          exact absurd hfalse (by simp)
  · cases henv : ListObjects env p.bucket ("") with
    | none =>
        rw [henv] at hq
        exact absurd hq (by simp)
    | some objs =>
        rw [henv] at hq
        have hq' := Outcome.next.inj (congrArg Prod.fst hq)
        rw [← hq']
        obtain ⟨resp, hresp, hobjs⟩ := Option.map_eq_some'.mp henv
        refine ⟨rfl, rfl, ?_, ?_, ?_, ?_⟩
        · rw [setObjectsHere_currentNode p _ hnav]
        · rw [setObjectsHere_currentNode p _ hnav]
          rfl
        · intro htrue
          exact absurd htrue hr
        · exact fun _ => ⟨resp, hobjs.symm⟩
  · cases henv : ListObjects env p.bucket (p.currentNode).key with
    | none =>
        rw [henv] at hq
        exact absurd hq (by simp)
    | some objs =>
        rw [henv] at hq
        have hq' := Outcome.next.inj (congrArg Prod.fst hq)
        rw [← hq']
        obtain ⟨resp, hresp, hobjs⟩ := Option.map_eq_some'.mp henv
        refine ⟨rfl, rfl, ?_, ?_, ?_, ?_⟩
        · rw [setObjectsHere_currentNode p _ hnav]
        · rw [setObjectsHere_currentNode p _ hnav]
          rfl
        · intro htrue
          exact absurd htrue hr
        · exact fun _ => ⟨resp, hobjs.symm⟩

/-- Witness for C4 (amended): the reload of `demoCursor2` against the empty
listing keeps cursor and position at 2 while replacing the rows. -/
theorem claim4_reload_replaces_entries_keeps_cursor_witness :
    demoCursor2Reloaded.listView.cursorPos = demoCursor2.listView.cursorPos ∧
    demoCursor2Reloaded.navigator = demoCursor2.navigator ∧
    (demoCursor2Reloaded.currentNode).position = (demoCursor2.currentNode).position ∧
    demoCursor2Reloaded.listView.objects = (demoCursor2Reloaded.currentNode).objects ∧
    ((demoCursor2.currentNode).IsRoot = true →
      ∃ bs, demoEnvEmptyList.listBuckets = some bs ∧
        demoCursor2Reloaded.listView.objects = listBucketsResult bs) ∧
    ((demoCursor2.currentNode).IsRoot = false →
      ∃ resp, demoCursor2Reloaded.listView.objects = listObjectsResult resp) :=
  claim4_reload_replaces_entries_keeps_cursor demoEnvEmptyList demoCursor2
    demoCursor2Reloaded [Eff.remote (RemoteCall.listObjectsCall ("alpha") (""))]
    (by decide) (by rfl)

/-- Rows built by a constant-kind map are all dropped by a filter for a
different kind. -/
theorem filter_map_none {α : Type _} (l : List α) (f : α → S3Object)
    (pr : S3Object → Bool) (hf : ∀ a, pr (f a) = false) :
    (l.map f).filter pr = [] := by
  induction l with
  | nil => rfl
  | cons x xs ih => simp [List.filter_cons, hf x, ih]

/-- Rows built by a constant-kind map are all kept by the filter for that
kind. -/
theorem filter_map_all {α : Type _} (l : List α) (f : α → S3Object)
    (pr : S3Object → Bool) (hf : ∀ a, pr (f a) = true) :
    (l.map f).filter pr = l.map f := by
  induction l with
  | nil => rfl
  | cons x xs ih => simp [List.filter_cons, hf x, ih]

/-- Counterexample to C5 as stated: a one-level listing with the empty
prefix (a container's top level) still contains the synthetic UpDir row —
the code appends `..` unconditionally. -/
theorem claim5_counterexample :
    demoEnv.listObjects ("alpha") ("") = some demoResp ∧
    ListObjects demoEnv ("alpha") ("") = some demoObjs ∧
    demoObjs.head? = some (NewS3Object ObjType.PreDir ("..") none none) ∧
    demoObjs.any (fun o => o.objType == ObjType.PreDir) = true :=
  ⟨rfl, rfl, rfl, rfl⟩

/-- Claim C5 (amended): a successful one-level listing yields Group (`Dir`)
rows for exactly the common prefixes and Leaf (`Object`) rows for exactly
the directly contained objects, and always contains exactly one synthetic
UpDir (`..`) row — for the empty prefix too, the prefix is never
consulted. -/
theorem claim5_listing_shape (env : Env) (b pfx : String) (resp : ListResp)
    (h : env.listObjects b pfx = some resp) :
    ∃ objs, ListObjects env b pfx = some objs ∧
      objs.filter (fun o => o.objType == ObjType.PreDir) =
        [NewS3Object ObjType.PreDir ("..") none none] ∧
      (objs.filter (fun o => o.objType == ObjType.Dir)).map S3Object.name =
        resp.commonPrefixes ∧
      (objs.filter (fun o => o.objType == ObjType.Object)).map S3Object.name =
        resp.contents.map Content.key := by
  refine ⟨listObjectsResult resp, ?_, ?_, ?_, ?_⟩
  · unfold ListObjects
    rw [h]
    rfl
  · have h1 : (resp.commonPrefixes.map fun cp =>
        NewS3Object ObjType.Dir cp none none).filter
          (fun o => o.objType == ObjType.PreDir) = [] :=
      filter_map_none _ _ _ (fun a => rfl)
    have h2 : (resp.contents.map fun c =>
        NewS3Object ObjType.Object c.key c.lastModified c.size).filter
          (fun o => o.objType == ObjType.PreDir) = [] :=
      filter_map_none _ _ _ (fun a => rfl)
    unfold listObjectsResult
    rw [List.filter_cons,
      if_pos (show ((NewS3Object ObjType.PreDir ("..") none none).objType ==
        ObjType.PreDir) = true from rfl),
      List.filter_append, h1, h2]
    rfl
  · have h1 : (resp.commonPrefixes.map fun cp =>
        NewS3Object ObjType.Dir cp none none).filter
          (fun o => o.objType == ObjType.Dir) =
        resp.commonPrefixes.map fun cp => NewS3Object ObjType.Dir cp none none :=
      filter_map_all _ _ _ (fun a => rfl)
    have h2 : (resp.contents.map fun c =>
        NewS3Object ObjType.Object c.key c.lastModified c.size).filter
          (fun o => o.objType == ObjType.Dir) = [] :=
      filter_map_none _ _ _ (fun a => rfl)
    unfold listObjectsResult
    rw [List.filter_cons,
      if_neg (show ¬((NewS3Object ObjType.PreDir ("..") none none).objType ==
        ObjType.Dir) = true from by decide),
      List.filter_append, h1, h2, List.append_nil, List.map_map]
    have hco : S3Object.name ∘ (fun cp => NewS3Object ObjType.Dir cp none none) =
        fun cp => cp := rfl
    rw [hco]
    exact List.map_id resp.commonPrefixes
  · have h1 : (resp.commonPrefixes.map fun cp =>
        NewS3Object ObjType.Dir cp none none).filter
          (fun o => o.objType == ObjType.Object) = [] :=
      filter_map_none _ _ _ (fun a => rfl)
    have h2 : (resp.contents.map fun c =>
        NewS3Object ObjType.Object c.key c.lastModified c.size).filter
          (fun o => o.objType == ObjType.Object) =
        resp.contents.map fun c => NewS3Object ObjType.Object c.key c.lastModified c.size :=
      filter_map_all _ _ _ (fun a => rfl)
    unfold listObjectsResult
    rw [List.filter_cons,
      if_neg (show ¬((NewS3Object ObjType.PreDir ("..") none none).objType ==
        ObjType.Object) = true from by decide),
      List.filter_append, h1, h2, List.nil_append, List.map_map]
    have hco : S3Object.name ∘ (fun c =>
        NewS3Object ObjType.Object c.key c.lastModified c.size) = Content.key := rfl
    rw [hco]

/-- Witness for C5 (amended): the sample listing, fetched with the empty
prefix, decomposes into one UpDir row, the `logs/` group and the
`readme.txt` leaf. -/
theorem claim5_listing_shape_witness :
    ∃ objs, ListObjects demoEnv ("alpha") ("") = some objs ∧
      objs.filter (fun o => o.objType == ObjType.PreDir) =
        [NewS3Object ObjType.PreDir ("..") none none] ∧
      (objs.filter (fun o => o.objType == ObjType.Dir)).map S3Object.name =
        demoResp.commonPrefixes ∧
      (objs.filter (fun o => o.objType == ObjType.Object)).map S3Object.name =
        demoResp.contents.map Content.key :=
  claim5_listing_shape demoEnv ("alpha") ("") demoResp rfl

/-- Counterexample to C6 as stated: invoking download on the `logs/` group
row fetches nothing and changes nothing — but the rejection goes to the
process log, the status line stays empty, so it is not "reported as a
status message". -/
theorem claim6_counterexample :
    (demoCursor1.listView.getCursorObject).map S3Object.objType = some ObjType.Dir ∧
    Provider.download demoEnv demoCursor1 =
      (Outcome.next demoCursor1, [Eff.logMsg ("Invalid s3 object type")]) ∧
    remoteCalls (Provider.download demoEnv demoCursor1).2 = [] ∧
    demoCursor1.statusMsg = ("") :=
  ⟨rfl, by rfl, by rfl, rfl⟩

/-- Claim C6 (amended): invoking download, open or edit while the cursor is
on a non-Leaf row (bucket, `..`, group) performs no object fetch, leaves
the whole session state — mode, navigation and status line included —
unchanged, and reports the rejection via a non-fatal process log line
reading `Invalid s3 object type`. -/
theorem claim6_invalid_entry_rejected (env : Env) (p : Provider) (obj : S3Object)
    (hcur : p.listView.getCursorObject = some obj)
    (hty : obj.objType ≠ ObjType.Object) :
    Provider.download env p = (Outcome.next p, [Eff.logMsg ("Invalid s3 object type")]) ∧
    Provider.openObj env p = (Outcome.next p, [Eff.logMsg ("Invalid s3 object type")]) ∧
    Provider.edit env p = (Outcome.next p, [Eff.logMsg ("Invalid s3 object type")]) := by
  cases htyv : obj.objType with
  | Object => exact absurd htyv hty
  | Bucket =>
      refine ⟨?_, ?_, ?_⟩ <;>
        simp [Provider.download, Provider.openObj, Provider.edit, hcur, htyv]
  | PreDir =>
      refine ⟨?_, ?_, ?_⟩ <;>
        simp [Provider.download, Provider.openObj, Provider.edit, hcur, htyv]
  | Dir =>
      refine ⟨?_, ?_, ?_⟩ <;>
        simp [Provider.download, Provider.openObj, Provider.edit, hcur, htyv]

/-- Witness for C6 (amended): all three actions reject the `logs/` group
row with the log line and an unchanged session. -/
theorem claim6_invalid_entry_rejected_witness :
    Provider.download demoEnv demoCursor1 =
      (Outcome.next demoCursor1, [Eff.logMsg ("Invalid s3 object type")]) ∧
    Provider.openObj demoEnv demoCursor1 =
      (Outcome.next demoCursor1, [Eff.logMsg ("Invalid s3 object type")]) ∧
    Provider.edit demoEnv demoCursor1 =
      (Outcome.next demoCursor1, [Eff.logMsg ("Invalid s3 object type")]) :=
  claim6_invalid_entry_rejected demoEnv demoCursor1
    (NewS3Object ObjType.Dir ("logs/") none none) rfl (by decide)

/-- Counterexample to C7 as stated: activating the menu's download item
while the transfer fails terminates the process — the session does not
return to List mode "regardless of whether the invoked action
succeeded". -/
theorem claim7_counterexample :
    demoMenu.status = ProviderStatus.StateMenu ∧
    menuItems.getD demoMenu.menuPos Command.CommandDownload = Command.CommandDownload ∧
    (Provider.Handle demoEnvNoDownload evEnter demoMenu).1 = Outcome.exited :=
  ⟨rfl, rfl, by rfl⟩

/-- Claim C7 (amended): every Menu-mode input that leaves the process
running keeps the navigation arena, the navigator and the list pane
exactly as they were, and after cancel (`q`) or activate (Enter) the
session is back in List mode — provided the activated action completes; a
transport or local-IO failure inside the action terminates the process
instead of returning to List mode. -/
theorem claim7_menu_frames_navigation (env : Env) (ev : Event) (p : Provider)
    (hwf : Event.wf ev) (hm : p.status = ProviderStatus.StateMenu) :
    ∀ q effs, Provider.Handle env ev p = (Outcome.next q, effs) →
      q.nodes = p.nodes ∧ q.navigator = p.navigator ∧ q.listView = p.listView ∧
      ((ev.ch = 'q' ∨ ev.key = TermKey.Enter) → q.status = ProviderStatus.StateList) := by
  intro q effs hq
  unfold Provider.Handle at hq
  rw [hm] at hq
  unfold Provider.menuEvent at hq
  by_cases c1 : ev.ch = 'j' ∨ ev.key = TermKey.ArrowDown ∨ ev.key = TermKey.CtrlN
  · rw [if_pos c1] at hq
    have hq' := Outcome.next.inj (congrArg Prod.fst hq)
    rw [← hq']
    refine ⟨rfl, rfl, rfl, ?_⟩
    rintro (hch | hke)
    · have hk := hwf (by rw [hch]; decide)
      rcases c1 with hj | hk2 | hk2
      · rw [hch] at hj
        exact absurd hj (by decide)
      · rw [hk] at hk2
        exact absurd hk2 (by decide)
      · rw [hk] at hk2
        exact absurd hk2 (by decide)
    · rcases c1 with hj | hk2 | hk2
      · have hk := hwf (by rw [hj]; decide)
        rw [hk] at hke
        exact absurd hke (by decide)
      · rw [hke] at hk2
        exact absurd hk2 (by decide)
      · rw [hke] at hk2
        exact absurd hk2 (by decide)
  rw [if_neg c1] at hq
  by_cases c2 : ev.ch = 'k' ∨ ev.key = TermKey.ArrowUp ∨ ev.key = TermKey.CtrlP
  · rw [if_pos c2] at hq
    have hq' := Outcome.next.inj (congrArg Prod.fst hq)
    rw [← hq']
    refine ⟨rfl, rfl, rfl, ?_⟩
    rintro (hch | hke)
    · have hk := hwf (by rw [hch]; decide)
      rcases c2 with hj | hk2 | hk2
      · rw [hch] at hj
        exact absurd hj (by decide)
      · rw [hk] at hk2
        exact absurd hk2 (by decide)
      · rw [hk] at hk2
        exact absurd hk2 (by decide)
    · rcases c2 with hj | hk2 | hk2
      · have hk := hwf (by rw [hj]; decide)
        rw [hk] at hke
        exact absurd hke (by decide)
      · rw [hke] at hk2
        exact absurd hk2 (by decide)
      · rw [hke] at hk2
        exact absurd hk2 (by decide)
  rw [if_neg c2] at hq
  by_cases c3 : ev.ch = 'q'
  · rw [if_pos c3] at hq
    have hq' := Outcome.next.inj (congrArg Prod.fst hq)
    rw [← hq']
    exact ⟨rfl, rfl, rfl, fun _ => rfl⟩
  rw [if_neg c3] at hq
  by_cases c4 : ev.key = TermKey.Enter
  · rw [if_pos c4] at hq
    dsimp only at hq
    cases hitem : menuItems.getD p.menuPos Command.CommandDownload with
    | CommandDownload =>
        rw [hitem] at hq
        rcases download_shape env p with hs | hs | ⟨m, hs⟩ <;> rw [hs] at hq
        · simp at hq
        · simp at hq
        · dsimp only at hq
          have hq' := Outcome.next.inj (congrArg Prod.fst hq)
          rw [← hq']
          exact ⟨rfl, rfl, rfl, fun _ => rfl⟩
    | CommandOpen =>
        rw [hitem] at hq
        rcases openObj_shape env p with hs | hs | ⟨m, hs⟩ <;> rw [hs] at hq
        · simp at hq
        · simp at hq
        · dsimp only at hq
          have hq' := Outcome.next.inj (congrArg Prod.fst hq)
          rw [← hq']
          exact ⟨rfl, rfl, rfl, fun _ => rfl⟩
    | CommandEdit =>
        rw [hitem] at hq
        rcases edit_shape env p with hs | hs | ⟨m, hs⟩ <;> rw [hs] at hq
        · simp at hq
        · simp at hq
        · dsimp only at hq
          have hq' := Outcome.next.inj (congrArg Prod.fst hq)
          rw [← hq']
          exact ⟨rfl, rfl, rfl, fun _ => rfl⟩
  rw [if_neg c4] at hq
  have hq' := Outcome.next.inj (congrArg Prod.fst hq)
  rw [← hq']
  refine ⟨rfl, rfl, rfl, ?_⟩
  rintro (hch | hke)
  · exact absurd hch c3
  · exact absurd hke c4

/-- The session after a successful download activated from `demoMenu`. -/
def demoMenuDone : Provider :=
  { demoMenu with
      status := ProviderStatus.StateList
      statusMsg := ("download complate. s3://alpha/readme.txt") }

/-- Witness for C7 (amended): activating the menu's download item with a
succeeding transfer returns to List mode with the navigation untouched. -/
theorem claim7_menu_frames_navigation_witness :
    demoMenuDone.nodes = demoMenu.nodes ∧
    demoMenuDone.navigator = demoMenu.navigator ∧
    demoMenuDone.listView = demoMenu.listView ∧
    ((evEnter.ch = 'q' ∨ evEnter.key = TermKey.Enter) →
      demoMenuDone.status = ProviderStatus.StateList) :=
  claim7_menu_frames_navigation demoEnv evEnter demoMenu
    (fun h => absurd rfl h) rfl demoMenuDone
    [Eff.remote (RemoteCall.downloadCall ("alpha") ("readme.txt"))] (by rfl)

/-- Counterexample to C8 as stated: a failing creation of the local
destination file does crash the session — the whole process exits via
`log.Fatalf` — instead of merely aborting that one action. -/
theorem claim8_counterexample :
    demoEnvNoCreate.createFile = false ∧
    (demoCursor2.listView.getCursorObject).map S3Object.objType =
      some ObjType.Object ∧
    (Provider.download demoEnvNoCreate demoCursor2).1 = Outcome.exited ∧
    remoteCalls (Provider.download demoEnvNoCreate demoCursor2).2 = [] :=
  ⟨rfl, rfl, by rfl, by rfl⟩

/-- Claim C8 (amended): when the local destination file cannot be created,
each of the three actions logs the failure and terminates the whole
process (`log.Fatalf`): no object fetch is performed, the action never
completes, and the session does not survive to return to List mode. -/
theorem claim8_create_failure_kills_process (env : Env) (p : Provider)
    (obj : S3Object) (hcur : p.listView.getCursorObject = some obj)
    (hty : obj.objType = ObjType.Object) (hcf : env.createFile = false) :
    Provider.download env p =
      (Outcome.exited, [Eff.logMsg ("failed create donwload reader")]) ∧
    Provider.openObj env p =
      (Outcome.exited, [Eff.logMsg ("failed create donwload reader")]) ∧
    Provider.edit env p =
      (Outcome.exited, [Eff.logMsg ("failed create donwload reader")]) := by
  refine ⟨?_, ?_, ?_⟩ <;>
    simp [Provider.download, Provider.openObj, Provider.edit, hcur, hty, hcf]

/-- Witness for C8 (amended): with file creation failing, downloading
`readme.txt` logs the create failure and exits without fetching. -/
theorem claim8_create_failure_kills_process_witness :
    Provider.download demoEnvNoCreate demoCursor2 =
      (Outcome.exited, [Eff.logMsg ("failed create donwload reader")]) ∧
    Provider.openObj demoEnvNoCreate demoCursor2 =
      (Outcome.exited, [Eff.logMsg ("failed create donwload reader")]) ∧
    Provider.edit demoEnvNoCreate demoCursor2 =
      (Outcome.exited, [Eff.logMsg ("failed create donwload reader")]) :=
  claim8_create_failure_kills_process demoEnvNoCreate demoCursor2
    (NewS3Object ObjType.Object ("readme.txt") none (some 42)) rfl rfl rfl

end S3TF
